import Mathlib

/-!
# Indicator manipulation routines (`lpd/indicator.c`)

A shallow embedding of the dispatch layer, the bulk state routines, the
operating-mode detection and the list construction of `lpd/indicator.c`.

* A C linked list of `struct loc_code` is a Lean `List loc_code`; `NULL` is `[]`.
* The hardware access routines of `indicator_rtas.h` and `indicator_ses.h`
  are not part of the translated file; they are a parameter (`Backend`),
  acting on an abstract hardware world `W`.
* The constants of `lp_diag.h` are a parameter as well (`Consts`).
* An `int *state` output parameter is a value passed in (the content of the
  cell before the call) and returned (its content after the call).
* The program state carries two ghost histories that the C code does not
  have: `hw`, the backend routines invoked so far, and `calls`, the calls of
  `get_indicator_state` / `set_indicator_state` made so far with what they
  returned.  They only record; no definition reads them.
-/

namespace Indicator

/-- Modelled from the spec: `struct loc_code` is declared in the absent header
`lp_diag.h`.  The fields are the ones the data model lists and `indicator.c`
uses: the location code, the backend discriminant (`loc->type`), the cached
state (`loc->state`) and backend-specific addressing data, which the routines
of this file never inspect.  The `next` link is the list structure. -/
structure loc_code where
  code : String
  type : Nat
  state : Int
  addr : Nat
  deriving DecidableEq, Repr

/-- Constants of the absent header `lp_diag.h`, taken as parameters. -/
structure Consts where
  TYPE_RTAS : Nat
  TYPE_SES : Nat
  LED_TYPE_IDENT : Int
  LED_TYPE_FAULT : Int
  LED_TYPE_ATTN : Int
  LED_DESC_IDENT : String
  LED_DESC_FAULT : String
  LED_DESC_ATTN : String
  LED_STATE_ON : Int
  LED_STATE_OFF : Int
  LED_MODE_GUIDING_LIGHT : Nat
  LED_MODE_LIGHT_PATH : Nat

/-- The hardware access routines declared in `indicator_rtas.h` and
`indicator_ses.h`, taken as parameters.  Each acts on the hardware world `W`.
The two read routines receive the content of `*state` and return the return
code, the content of `*state` afterwards and the new world; the two write
routines return the return code and the new world; the two list routines
receive the content of `*list` and return the return code, the content of
`*list` afterwards and the new world. -/
structure Backend (W : Type) where
  get_rtas_sensor : Int → loc_code → Int → W → Int × Int × W
  get_ses_indicator : Int → loc_code → Int → W → Int × Int × W
  set_rtas_indicator : Int → loc_code → Int → W → Int × W
  set_ses_indicator : Int → loc_code → Int → W → Int × W
  get_rtas_indices : Int → List loc_code → W → Int × List loc_code × W
  get_ses_indices : Int → List loc_code → W → Int × List loc_code × W

/-- One invocation of a backend routine, with its arguments (ghost). -/
inductive Prim where
  | get_rtas_sensor (indicator : Int) (loc : loc_code)
  | get_ses_indicator (indicator : Int) (loc : loc_code)
  | set_rtas_indicator (indicator : Int) (loc : loc_code) (new_value : Int)
  | set_ses_indicator (indicator : Int) (loc : loc_code) (new_value : Int)
  | get_rtas_indices (indicator : Int)
  | get_ses_indices (indicator : Int)
  deriving DecidableEq, Repr

/-- One completed call of the dispatch layer (ghost): `read` is a call of
`get_indicator_state` with its return code and the content of `*state` on
return, `write` a call of `set_indicator_state` with its return code. -/
inductive Call where
  | read (indicator : Int) (loc : loc_code) (rc : Int) (state : Int)
  | write (indicator : Int) (loc : loc_code) (new_value : Int) (rc : Int)
  deriving DecidableEq, Repr

/-- Program state: the hardware world, the global `operating_mode`, and the
two ghost histories. -/
structure State (W : Type) where
  world : W
  operating_mode : Nat
  hw : List Prim
  calls : List Call

/-- `get_indicator_state(indicator, loc, state)`: returns the return code, the
content of `*state` afterwards and the new program state. -/
def get_indicator_state {W : Type} (B : Backend W) (c : Consts)
    (indicator : Int) (loc : loc_code) (state : Int) (s : State W) :
    Int × Int × State W :=
  if loc.type = c.TYPE_RTAS then
    let r := B.get_rtas_sensor indicator loc state s.world
    (r.1, r.2.1,
      ⟨r.2.2, s.operating_mode, s.hw ++ [Prim.get_rtas_sensor indicator loc],
        s.calls ++ [Call.read indicator loc r.1 r.2.1]⟩)
  else if loc.type = c.TYPE_SES then
    let r := B.get_ses_indicator indicator loc state s.world
    (r.1, r.2.1,
      ⟨r.2.2, s.operating_mode, s.hw ++ [Prim.get_ses_indicator indicator loc],
        s.calls ++ [Call.read indicator loc r.1 r.2.1]⟩)
  else
    (-1, state,
      ⟨s.world, s.operating_mode, s.hw, s.calls ++ [Call.read indicator loc (-1) state]⟩)

/-- `set_indicator_state(indicator, loc, new_value)`: returns the return code
and the new program state. -/
def set_indicator_state {W : Type} (B : Backend W) (c : Consts)
    (indicator : Int) (loc : loc_code) (new_value : Int) (s : State W) :
    Int × State W :=
  if loc.type = c.TYPE_RTAS then
    let r := B.set_rtas_indicator indicator loc new_value s.world
    (r.1,
      ⟨r.2, s.operating_mode, s.hw ++ [Prim.set_rtas_indicator indicator loc new_value],
        s.calls ++ [Call.write indicator loc new_value r.1]⟩)
  else if loc.type = c.TYPE_SES then
    let r := B.set_ses_indicator indicator loc new_value s.world
    (r.1,
      ⟨r.2, s.operating_mode, s.hw ++ [Prim.set_ses_indicator indicator loc new_value],
        s.calls ++ [Call.write indicator loc new_value r.1]⟩)
  else
    (-1,
      ⟨s.world, s.operating_mode, s.hw, s.calls ++ [Call.write indicator loc new_value (-1)]⟩)

/-- The `while (loc)` loop of `get_all_indicator_state`: `state` is the content
of the local `int state` on entry to the iteration.  Returns the list with the
`state` fields updated and the new program state. -/
def get_all_indicator_state_loop {W : Type} (B : Backend W) (c : Consts)
    (indicator : Int) : List loc_code → Int → State W → List loc_code × State W
  | [], _, s => ([], s)
  | loc :: next, state, s =>
    let r := get_indicator_state B c indicator loc state s
    let loc1 : loc_code :=
      if r.1 ≠ 0 then ⟨loc.code, loc.type, -1, loc.addr⟩
      else ⟨loc.code, loc.type, r.2.1, loc.addr⟩
    let rest := get_all_indicator_state_loop B c indicator next r.2.1 r.2.2
    (loc1 :: rest.1, rest.2)

/-- `get_all_indicator_state(indicator, loc)`.  The local `int state` is not
initialised in the C code; its indeterminate initial content is the argument
`state`.  The function is `void`: it returns nothing besides the updated list. -/
def get_all_indicator_state {W : Type} (B : Backend W) (c : Consts)
    (indicator : Int) (loc : List loc_code) (state : Int) (s : State W) :
    List loc_code × State W :=
  get_all_indicator_state_loop B c indicator loc state s

/-- The `while (loc)` loop of `set_all_indicator_state` (the main pass). -/
def set_all_indicator_state_loop {W : Type} (B : Backend W) (c : Consts)
    (indicator : Int) (new_value : Int) : List loc_code → Int → State W → State W
  | [], _, s => s
  | loc :: next, state, s =>
    let r := get_indicator_state B c indicator loc state s
    let s1 :=
      if r.1 ≠ 0 ∨ r.2.1 ≠ new_value then
        (set_indicator_state B c indicator loc new_value r.2.2).2
      else r.2.2
    set_all_indicator_state_loop B c indicator new_value next r.2.1 s1

/-- `set_all_indicator_state(indicator, loc, new_value)`.  The argument `state`
is the indeterminate initial content of the uninitialised local `int state`.
`encl = &loc[0]` is the head of the list, `NULL` when the list is empty. -/
def set_all_indicator_state {W : Type} (B : Backend W) (c : Consts)
    (indicator : Int) (loc : List loc_code) (new_value : Int) (state : Int)
    (s : State W) : State W :=
  let s1 := set_all_indicator_state_loop B c indicator new_value loc state s
  match loc with
  | [] => s1
  | encl :: _ =>
    if indicator = c.LED_TYPE_IDENT ∧ new_value = c.LED_STATE_OFF then
      (set_indicator_state B c indicator encl new_value s1).2
    else s1

/-- The call `get_rtas_indices(indicator, &list)` made from this file: the
backend routine is run on the world and recorded in `hw`. -/
def call_get_rtas_indices {W : Type} (B : Backend W) (indicator : Int)
    (list : List loc_code) (s : State W) : Int × List loc_code × State W :=
  let r := B.get_rtas_indices indicator list s.world
  (r.1, r.2.1,
    ⟨r.2.2, s.operating_mode, s.hw ++ [Prim.get_rtas_indices indicator], s.calls⟩)

/-- The call `get_ses_indices(indicator, &list)` made from this file. -/
def call_get_ses_indices {W : Type} (B : Backend W) (indicator : Int)
    (list : List loc_code) (s : State W) : Int × List loc_code × State W :=
  let r := B.get_ses_indices indicator list s.world
  (r.1, r.2.1,
    ⟨r.2.2, s.operating_mode, s.hw ++ [Prim.get_ses_indices indicator], s.calls⟩)

/-- `check_operating_mode()`: returns the return code and the new program
state.  `free_indicator_list` releases memory only, which is not modelled. -/
def check_operating_mode {W : Type} (B : Backend W) (c : Consts) (s : State W) :
    Int × State W :=
  let r := call_get_rtas_indices B c.LED_TYPE_FAULT [] s
  if r.1 ≠ 0 then (-1, r.2.2)
  else
    match r.2.1 with
    | [] => (-1, r.2.2)
    | [_] => (0, ⟨r.2.2.world, c.LED_MODE_GUIDING_LIGHT, r.2.2.hw, r.2.2.calls⟩)
    | _ :: _ :: _ => (0, ⟨r.2.2.world, c.LED_MODE_LIGHT_PATH, r.2.2.hw, r.2.2.calls⟩)

/-- The common body of `enable_check_log_indicator` and
`disable_check_log_indicator`, which differ in the state written only.
`clocation = &list[0]` is the head of the list; when the list is `NULL` the
call of `set_indicator_state` dereferences a null pointer, which is `none`. -/
def check_log_indicator {W : Type} (B : Backend W) (c : Consts) (value : Int)
    (s : State W) : Option (Int × State W) :=
  let r := call_get_rtas_indices B c.LED_TYPE_FAULT [] s
  if r.1 ≠ 0 then some (r.1, r.2.2)
  else
    match r.2.1 with
    | [] => none
    | clocation :: _ => some (set_indicator_state B c c.LED_TYPE_FAULT clocation value r.2.2)

/-- `enable_check_log_indicator()`. -/
def enable_check_log_indicator {W : Type} (B : Backend W) (c : Consts) (s : State W) :
    Option (Int × State W) :=
  check_log_indicator B c c.LED_STATE_ON s

/-- `disable_check_log_indicator()`. -/
def disable_check_log_indicator {W : Type} (B : Backend W) (c : Consts) (s : State W) :
    Option (Int × State W) :=
  check_log_indicator B c c.LED_STATE_OFF s

/-- `get_indicator_list(indicator, list)`: `list` is the content of `*list` on
entry; returns the return code, the content of `*list` afterwards and the new
program state. -/
def get_indicator_list {W : Type} (B : Backend W) (c : Consts) (indicator : Int)
    (list : List loc_code) (s : State W) : Int × List loc_code × State W :=
  let r := call_get_rtas_indices B indicator list s
  if r.1 ≠ 0 then (r.1, r.2.1, r.2.2)
  else if indicator = c.LED_TYPE_FAULT ∧
      r.2.2.operating_mode = c.LED_MODE_GUIDING_LIGHT then (r.1, r.2.1, r.2.2)
  else
    let q := call_get_ses_indices B indicator r.2.1 r.2.2
    (r.1, q.2.1, q.2.2)

/-! ## The bulk write as the specification words it -/

/-- The table `led_type_map`.  A `NULL` description is `none`; the last entry
is the sentinel `{-1, NULL}`. -/
def led_type_map (c : Consts) : List (Int × Option String) :=
  [(c.LED_TYPE_IDENT, some c.LED_DESC_IDENT),
   (c.LED_TYPE_FAULT, some c.LED_DESC_FAULT),
   (c.LED_TYPE_ATTN, some c.LED_DESC_ATTN),
   (-1, none)]

/-- The `for` loop of `get_indicator_type` over the entries from the current
index on: it runs while the description is not `NULL` and returns the type of
the first entry whose description compares equal (`!strcmp`); after the loop
the result is `-1`.  The table ends with the sentinel, so the loop never runs
past the last entry. -/
def get_indicator_type_loop : List (Int × Option String) → String → Int
  | (type, some desc) :: rest, indicator_desc =>
    if desc = indicator_desc then type else get_indicator_type_loop rest indicator_desc
  | _, _ => -1

/-- `get_indicator_type(indicator_desc)`. -/
def get_indicator_type (c : Consts) (indicator_desc : String) : Int :=
  get_indicator_type_loop (led_type_map c) indicator_desc

/-- The `for` loop of `get_indicator_desc` over the entries from the current
index on: it runs while the type is not `-1` and returns the description of
the first entry whose type is the given one; after the loop the result is
`"Unknown"`.  The result is a `const char *`; `none` is `NULL`. -/
def get_indicator_desc_loop : List (Int × Option String) → Int → Option String
  | (type, desc) :: rest, indicator =>
    if type = -1 then some "Unknown"
    else if type = indicator then desc
    else get_indicator_desc_loop rest indicator
  | [], _ => some "Unknown"

/-- `get_indicator_desc(indicator)`. -/
def get_indicator_desc (c : Consts) (indicator : Int) : Option String :=
  get_indicator_desc_loop (led_type_map c) indicator

/-- The three kinds of the header are pairwise different and none of them is
the `-1` of the sentinel. -/
def Consts.kinds_distinct (c : Consts) : Prop :=
  c.LED_TYPE_IDENT ≠ c.LED_TYPE_FAULT ∧ c.LED_TYPE_IDENT ≠ c.LED_TYPE_ATTN ∧
  c.LED_TYPE_FAULT ≠ c.LED_TYPE_ATTN ∧
  c.LED_TYPE_IDENT ≠ -1 ∧ c.LED_TYPE_FAULT ≠ -1 ∧ c.LED_TYPE_ATTN ≠ -1

instance (c : Consts) : Decidable c.kinds_distinct := by
  unfold Consts.kinds_distinct
  infer_instance

/-! ## Location codes and search -/

/-- `strchr(s, ch)` for a character other than the terminator: the string
from the first occurrence of `ch` on, `none` (`NULL`) when there is none. -/
def strchr : List Char → Char → Option (List Char)
  | [], _ => none
  | x :: xs, ch => if x = ch then some (x :: xs) else strchr xs ch

/-- `is_enclosure_loc_code(loc)`. -/
def is_enclosure_loc_code (loc : loc_code) : Int :=
  if strchr loc.code.data '-' = none then 1 else 0

/-- The difference `a - b` of two `size_t` values (64 bits, unsigned): below
zero it wraps around. -/
def size_t_sub (a b : Nat) : Nat :=
  if b ≤ a then a - b else a + 2 ^ 64 - b

/-- The value of a `size_t` converted to the 32-bit `int`. -/
def size_t_to_int (n : Nat) : Int :=
  if n % 2 ^ 32 < 2 ^ 31 then ((n % 2 ^ 32 : Nat) : Int)
  else ((n % 2 ^ 32 : Nat) : Int) - 2 ^ 32

/-- The `for` loop of `truncate_loc_code`.  The argument is `i + 1` for the
loop index `i`, so `0` is the exit `i < 0`.  The result is the index at which
a `'-'` was found and overwritten by the terminator, `none` when the loop ran
out. -/
def truncate_loc_code_loop (loccode : List Char) : Nat → Option Nat
  | 0 => none
  | i + 1 =>
    if loccode[i]? = some '-' then some i else truncate_loc_code_loop loccode i

/-- `truncate_loc_code(loccode)`: returns the return code and the string in
the buffer afterwards.  `strlen(loccode) - 1` is computed in `size_t` (64 bits)
and converted to `int`; writing the terminator at index `i` leaves the first
`i` characters. -/
def truncate_loc_code (loccode : String) : Int × String :=
  let i := size_t_to_int (size_t_sub loccode.length 1)
  if i < 0 then (0, loccode)
  else
    match truncate_loc_code_loop loccode.data (i.toNat + 1) with
    | some k => (1, String.mk (loccode.data.take k))
    | none => (0, loccode)

/-- `get_indicator_for_loc_code(list, location)`.  The pointer returned is the
list that starts at the record found; `NULL` is `[]`.  The function stores
nothing, so the list it is given is not an output. -/
def get_indicator_for_loc_code : List loc_code → String → List loc_code
  | [], _ => []
  | loc :: next, location =>
    if loc.code = location then loc :: next
    else get_indicator_for_loc_code next location

/-- The `while (loc)` loop of `set_all_indicator_state` together with the list
as the loop leaves it: the loop body assigns to no field of the record, so
each record is passed on as it is. -/
def set_all_indicator_state_loop_list {W : Type} (B : Backend W) (c : Consts)
    (indicator : Int) (new_value : Int) :
    List loc_code → Int → State W → List loc_code × State W
  | [], _, s => ([], s)
  | loc :: next, state, s =>
    let r := get_indicator_state B c indicator loc state s
    let s1 :=
      if r.1 ≠ 0 ∨ r.2.1 ≠ new_value then
        (set_indicator_state B c indicator loc new_value r.2.2).2
      else r.2.2
    let rest := set_all_indicator_state_loop_list B c indicator new_value next r.2.1 s1
    (loc :: rest.1, rest.2)

/-- `set_all_indicator_state(indicator, loc, new_value)` together with the list
as the call leaves it. -/
def set_all_indicator_state_list {W : Type} (B : Backend W) (c : Consts)
    (indicator : Int) (loc : List loc_code) (new_value : Int) (state : Int)
    (s : State W) : List loc_code × State W :=
  let r := set_all_indicator_state_loop_list B c indicator new_value loc state s
  match r.1 with
  | [] => r
  | encl :: _ =>
    if indicator = c.LED_TYPE_IDENT ∧ new_value = c.LED_STATE_OFF then
      (r.1, (set_indicator_state B c indicator encl new_value r.2).2)
    else r

/-! ## A concrete configuration, used to evaluate the definitions -/

/-- One choice of the constants of `lp_diag.h`. -/
def sampleConsts : Consts :=
  ⟨1, 2, 0, 1, 2, "Identify", "Fault", "Attention", 1, 0, 1, 2⟩

/-- A small backend over a world that maps the `addr` of an indicator to its
state.  Reading or writing an indicator the world does not know fails with
`-2`.  The platform query answers `rtas`, the enclosure query appends `ses.2`
and answers `ses.1`. -/
def sampleBackend (rtas : Int × List loc_code) (ses : Int × List loc_code) :
    Backend (List (Nat × Int)) where
  get_rtas_sensor := fun _ loc state w =>
    match w.lookup loc.addr with
    | some v => (0, v, w)
    | none => (-2, state, w)
  get_ses_indicator := fun _ loc state w =>
    match w.lookup loc.addr with
    | some v => (0, v, w)
    | none => (-2, state, w)
  set_rtas_indicator := fun _ loc v w =>
    match w.lookup loc.addr with
    | some _ => (0, w.map (fun e => if e.1 = loc.addr then (e.1, v) else e))
    | none => (-2, w)
  set_ses_indicator := fun _ loc v w =>
    match w.lookup loc.addr with
    | some _ => (0, w.map (fun e => if e.1 = loc.addr then (e.1, v) else e))
    | none => (-2, w)
  get_rtas_indices := fun _ list w =>
    if rtas.1 ≠ 0 then (rtas.1, list, w) else (0, rtas.2, w)
  get_ses_indices := fun _ list w => (ses.1, list ++ ses.2, w)

/-- A backend with no indicator lists. -/
def plainBackend : Backend (List (Nat × Int)) := sampleBackend (0, []) (0, [])

/-- An initial program state over the given world: `operating_mode` is the
zero of an uninitialised global, the histories are empty. -/
def initState (w : List (Nat × Int)) : State (List (Nat × Int)) := ⟨w, 0, [], []⟩

/-- A platform record. -/
def rtasLoc (code : String) (addr : Nat) : loc_code := ⟨code, 1, 0, addr⟩

/-- An enclosure record. -/
def sesLoc (code : String) (addr : Nat) : loc_code := ⟨code, 2, 0, addr⟩

/-- An enclosure with two components, `[enclosure, comp1, comp2]`. -/
def sampleEnclosure : List loc_code :=
  [sesLoc "U78" 0, sesLoc "U78-P1" 1, sesLoc "U78-P1-C2" 2]

/-- Three platform records, as the platform fault query may answer them. -/
def sampleFaults : List loc_code :=
  [rtasLoc "U78" 0, rtasLoc "U78-P1" 1, rtasLoc "U78-P1-C2" 2]

/-- The location code after `k` calls of `truncate_loc_code` on it, each call
working on what the previous one left. -/
def truncate_repeat : Nat → String → String
  | 0, loccode => loccode
  | k + 1, loccode => truncate_repeat k (truncate_loc_code loccode).2

/-- Two enclosure records whose cached state is ON. -/
def sampleCachedOn : List loc_code := [⟨"U78", 2, 1, 0⟩, ⟨"U78-P1", 2, 1, 1⟩]

/-! ## Dispatch -/

/-- C1: `get_indicator_state` on a record of type `TYPE_RTAS` invokes exactly
`get_rtas_sensor` and returns its return code and state unchanged; on a record
of type `TYPE_SES` it invokes exactly `get_ses_indicator` and returns its
return code and state unchanged.  `set_indicator_state` dispatches in the same
way to `set_rtas_indicator` or `set_ses_indicator`, with the same indicator,
record and new value, and returns that routine's return code unchanged.  In
each case the history of backend invocations grows by that one routine only,
and the world is the one that routine left. -/
theorem dispatch_by_record_type {W : Type} (B : Backend W) (c : Consts)
    (hdistinct : c.TYPE_RTAS ≠ c.TYPE_SES)
    (indicator : Int) (loc : loc_code) (state new_value : Int) (s : State W) :
    (loc.type = c.TYPE_RTAS →
      (get_indicator_state B c indicator loc state s).1
          = (B.get_rtas_sensor indicator loc state s.world).1 ∧
      (get_indicator_state B c indicator loc state s).2.1
          = (B.get_rtas_sensor indicator loc state s.world).2.1 ∧
      (get_indicator_state B c indicator loc state s).2.2.world
          = (B.get_rtas_sensor indicator loc state s.world).2.2 ∧
      (get_indicator_state B c indicator loc state s).2.2.hw
          = s.hw ++ [Prim.get_rtas_sensor indicator loc] ∧
      (set_indicator_state B c indicator loc new_value s).1
          = (B.set_rtas_indicator indicator loc new_value s.world).1 ∧
      (set_indicator_state B c indicator loc new_value s).2.world
          = (B.set_rtas_indicator indicator loc new_value s.world).2 ∧
      (set_indicator_state B c indicator loc new_value s).2.hw
          = s.hw ++ [Prim.set_rtas_indicator indicator loc new_value]) ∧
    (loc.type = c.TYPE_SES →
      (get_indicator_state B c indicator loc state s).1
          = (B.get_ses_indicator indicator loc state s.world).1 ∧
      (get_indicator_state B c indicator loc state s).2.1
          = (B.get_ses_indicator indicator loc state s.world).2.1 ∧
      (get_indicator_state B c indicator loc state s).2.2.world
          = (B.get_ses_indicator indicator loc state s.world).2.2 ∧
      (get_indicator_state B c indicator loc state s).2.2.hw
          = s.hw ++ [Prim.get_ses_indicator indicator loc] ∧
      (set_indicator_state B c indicator loc new_value s).1
          = (B.set_ses_indicator indicator loc new_value s.world).1 ∧
      (set_indicator_state B c indicator loc new_value s).2.world
          = (B.set_ses_indicator indicator loc new_value s.world).2 ∧
      (set_indicator_state B c indicator loc new_value s).2.hw
          = s.hw ++ [Prim.set_ses_indicator indicator loc new_value]) := by
  constructor
  · intro h
    simp [get_indicator_state, set_indicator_state, h]
  · intro h
    have h2 : ¬ c.TYPE_SES = c.TYPE_RTAS := fun e => hdistinct e.symm
    simp [get_indicator_state, set_indicator_state, h, h2]

/-- The dispatch theorem at a platform record and at an enclosure record of
the sample configuration. -/
theorem dispatch_by_record_type_witness :
    sampleConsts.TYPE_RTAS ≠ sampleConsts.TYPE_SES ∧
    (get_indicator_state plainBackend sampleConsts 0 (rtasLoc "U78" 7) 9
        (initState [(7, 1)])).2.2.hw = [Prim.get_rtas_sensor 0 (rtasLoc "U78" 7)] ∧
    (set_indicator_state plainBackend sampleConsts 0 (sesLoc "U78" 7) 0
        (initState [(7, 1)])).2.hw = [Prim.set_ses_indicator 0 (sesLoc "U78" 7) 0] :=
  ⟨by decide,
    ((dispatch_by_record_type plainBackend sampleConsts (by decide) 0 (rtasLoc "U78" 7) 9 0
      (initState [(7, 1)])).1 rfl).2.2.2.1,
    ((dispatch_by_record_type plainBackend sampleConsts (by decide) 0 (sesLoc "U78" 7) 9 0
      (initState [(7, 1)])).2 rfl).2.2.2.2.2.2⟩

/-- C2: on a record whose type is neither `TYPE_RTAS` nor `TYPE_SES`,
`get_indicator_state` and `set_indicator_state` return `-1`, which is not
zero, invoke no backend routine, leave the world and the operating mode as
they were, and `get_indicator_state` leaves the content of `*state` as it
was. -/
theorem dispatch_unknown_type {W : Type} (B : Backend W) (c : Consts)
    (indicator : Int) (loc : loc_code) (state new_value : Int) (s : State W)
    (hrtas : loc.type ≠ c.TYPE_RTAS) (hses : loc.type ≠ c.TYPE_SES) :
    (get_indicator_state B c indicator loc state s).1 = -1 ∧
    (get_indicator_state B c indicator loc state s).1 ≠ 0 ∧
    (get_indicator_state B c indicator loc state s).2.1 = state ∧
    (get_indicator_state B c indicator loc state s).2.2.hw = s.hw ∧
    (get_indicator_state B c indicator loc state s).2.2.world = s.world ∧
    (get_indicator_state B c indicator loc state s).2.2.operating_mode = s.operating_mode ∧
    (set_indicator_state B c indicator loc new_value s).1 = -1 ∧
    (set_indicator_state B c indicator loc new_value s).1 ≠ 0 ∧
    (set_indicator_state B c indicator loc new_value s).2.hw = s.hw ∧
    (set_indicator_state B c indicator loc new_value s).2.world = s.world ∧
    (set_indicator_state B c indicator loc new_value s).2.operating_mode = s.operating_mode := by
  simp [get_indicator_state, set_indicator_state, hrtas, hses]

/-- The unknown-type theorem at a record of type 7 of the sample configuration. -/
theorem dispatch_unknown_type_witness :
    (get_indicator_state plainBackend sampleConsts 0 ⟨"U78", 7, 0, 3⟩ 9
        (initState [(3, 1)])).1 = -1 ∧
    (get_indicator_state plainBackend sampleConsts 0 ⟨"U78", 7, 0, 3⟩ 9
        (initState [(3, 1)])).2.1 = 9 ∧
    (set_indicator_state plainBackend sampleConsts 0 ⟨"U78", 7, 0, 3⟩ 1
        (initState [(3, 1)])).2.hw = [] :=
  have h := dispatch_unknown_type plainBackend sampleConsts 0 ⟨"U78", 7, 0, 3⟩ 9 1
    (initState [(3, 1)]) (by decide) (by decide)
  ⟨h.1, h.2.2.1, h.2.2.2.2.2.2.2.2.1⟩

/-! ## Bulk write -/

/-- Every call of `set_indicator_state` appends one `write` entry, carrying
the return code, to the call history. -/
theorem set_indicator_state_calls {W : Type} (B : Backend W) (c : Consts)
    (indicator : Int) (loc : loc_code) (new_value : Int) (s : State W) :
    (set_indicator_state B c indicator loc new_value s).2.calls
      = s.calls ++ [Call.write indicator loc new_value
          (set_indicator_state B c indicator loc new_value s).1] := by
  unfold set_indicator_state
  split_ifs <;> rfl

/-- C4: the compensation rule of `set_all_indicator_state`.  On the empty list
the program state is left as it was, so no backend call is made.  On a
non-empty list with indicator `LED_TYPE_IDENT` and target `LED_STATE_OFF` the
main pass is followed by exactly one more `set_indicator_state` call, of
`LED_STATE_OFF` on the first record, whatever the main pass did to it.  When
the indicator is not `LED_TYPE_IDENT` or the target is not `LED_STATE_OFF`
nothing follows the main pass.  On `[enclosure, comp1, comp2]`, all reading
ON, the writes go to enclosure, comp1, comp2, enclosure. -/
theorem compensation_rule {W : Type} (B : Backend W) (c : Consts)
    (indicator new_value : Int) (l : List loc_code) (state : Int) (s : State W) :
    (l = [] → set_all_indicator_state B c indicator l new_value state s = s) ∧
    (∀ encl rest, l = encl :: rest →
      indicator = c.LED_TYPE_IDENT → new_value = c.LED_STATE_OFF →
      set_all_indicator_state B c indicator l new_value state s
        = (set_indicator_state B c c.LED_TYPE_IDENT encl c.LED_STATE_OFF
            (set_all_indicator_state_loop B c indicator new_value l state s)).2 ∧
      ∃ rc, (set_all_indicator_state B c indicator l new_value state s).calls
        = (set_all_indicator_state_loop B c indicator new_value l state s).calls
            ++ [Call.write c.LED_TYPE_IDENT encl c.LED_STATE_OFF rc]) ∧
    (¬ (indicator = c.LED_TYPE_IDENT ∧ new_value = c.LED_STATE_OFF) →
      set_all_indicator_state B c indicator l new_value state s
        = set_all_indicator_state_loop B c indicator new_value l state s) ∧
    (set_all_indicator_state plainBackend sampleConsts sampleConsts.LED_TYPE_IDENT
        sampleEnclosure sampleConsts.LED_STATE_OFF 0
        (initState [(0, 1), (1, 1), (2, 1)])).calls
      = [Call.read 0 (sesLoc "U78" 0) 0 1, Call.write 0 (sesLoc "U78" 0) 0 0,
         Call.read 0 (sesLoc "U78-P1" 1) 0 1, Call.write 0 (sesLoc "U78-P1" 1) 0 0,
         Call.read 0 (sesLoc "U78-P1-C2" 2) 0 1, Call.write 0 (sesLoc "U78-P1-C2" 2) 0 0,
         Call.write 0 (sesLoc "U78" 0) 0 0] := by
  refine ⟨?_, ?_, ?_, ?_⟩
  · intro h
    subst h
    rfl
  · intro encl rest h hi hv
    subst h
    have heq : set_all_indicator_state B c indicator (encl :: rest) new_value state s
        = (set_indicator_state B c c.LED_TYPE_IDENT encl c.LED_STATE_OFF
            (set_all_indicator_state_loop B c indicator new_value (encl :: rest) state s)).2 := by
      simp [set_all_indicator_state, hi, hv]
    refine ⟨heq, (set_indicator_state B c c.LED_TYPE_IDENT encl c.LED_STATE_OFF
      (set_all_indicator_state_loop B c indicator new_value (encl :: rest) state s)).1, ?_⟩
    rw [heq]
    exact set_indicator_state_calls B c _ encl _ _
  · intro h
    cases l with
    | nil => rfl
    | cons encl rest => simp [set_all_indicator_state, h]
  · decide

/-- The compensation rule at the sample enclosure with indicator
`LED_TYPE_IDENT` and target `LED_STATE_OFF`. -/
theorem compensation_rule_witness :
    set_all_indicator_state plainBackend sampleConsts 0 sampleEnclosure 0 0
        (initState [(0, 1), (1, 1), (2, 1)])
      = (set_indicator_state plainBackend sampleConsts 0 (sesLoc "U78" 0) 0
          (set_all_indicator_state_loop plainBackend sampleConsts 0 0 sampleEnclosure 0
            (initState [(0, 1), (1, 1), (2, 1)]))).2 :=
  ((compensation_rule plainBackend sampleConsts 0 0 sampleEnclosure 0
    (initState [(0, 1), (1, 1), (2, 1)])).2.1 (sesLoc "U78" 0)
      [sesLoc "U78-P1" 1, sesLoc "U78-P1-C2" 2] rfl rfl rfl).1

/-! ## Bulk read -/

/-- C6: `check_operating_mode` classifies by the number of records the platform
query for `LED_TYPE_FAULT` returns.  When the query succeeds with exactly one
record the return code is 0 and the mode is `LED_MODE_GUIDING_LIGHT`; when it
succeeds with two or more records the return code is 0 and the mode is
`LED_MODE_LIGHT_PATH`; when it leaves no record the return code is not zero
and the mode is the one before the call.  The only backend routine invoked is
`get_rtas_indices` for `LED_TYPE_FAULT`.  With the sample backend: one record
gives mode 1, three records give mode 2, no record gives `-1` and the mode
stays at the 0 of the initial state. -/
theorem check_operating_mode_classifies {W : Type} (B : Backend W) (c : Consts)
    (s : State W) :
    ((B.get_rtas_indices c.LED_TYPE_FAULT [] s.world).1 = 0 →
      (B.get_rtas_indices c.LED_TYPE_FAULT [] s.world).2.1.length = 1 →
      (check_operating_mode B c s).1 = 0 ∧
      (check_operating_mode B c s).2.operating_mode = c.LED_MODE_GUIDING_LIGHT) ∧
    ((B.get_rtas_indices c.LED_TYPE_FAULT [] s.world).1 = 0 →
      2 ≤ (B.get_rtas_indices c.LED_TYPE_FAULT [] s.world).2.1.length →
      (check_operating_mode B c s).1 = 0 ∧
      (check_operating_mode B c s).2.operating_mode = c.LED_MODE_LIGHT_PATH) ∧
    ((B.get_rtas_indices c.LED_TYPE_FAULT [] s.world).2.1.length = 0 →
      (check_operating_mode B c s).1 ≠ 0 ∧
      (check_operating_mode B c s).2.operating_mode = s.operating_mode) ∧
    (check_operating_mode B c s).2.hw = s.hw ++ [Prim.get_rtas_indices c.LED_TYPE_FAULT] ∧
    (check_operating_mode B c s).2.calls = s.calls ∧
    (check_operating_mode B c s).2.world = (B.get_rtas_indices c.LED_TYPE_FAULT [] s.world).2.2 ∧
    ((check_operating_mode (sampleBackend (0, [rtasLoc "U78" 0]) (0, sampleEnclosure))
        sampleConsts (initState [])).1 = 0 ∧
     (check_operating_mode (sampleBackend (0, [rtasLoc "U78" 0]) (0, sampleEnclosure))
        sampleConsts (initState [])).2.operating_mode = 1 ∧
     (check_operating_mode (sampleBackend (0, sampleFaults) (0, sampleEnclosure))
        sampleConsts (initState [])).1 = 0 ∧
     (check_operating_mode (sampleBackend (0, sampleFaults) (0, sampleEnclosure))
        sampleConsts (initState [])).2.operating_mode = 2 ∧
     (check_operating_mode (sampleBackend (0, []) (0, sampleEnclosure))
        sampleConsts (initState [])).1 = -1 ∧
     (check_operating_mode (sampleBackend (0, []) (0, sampleEnclosure))
        sampleConsts (initState [])).2.operating_mode = 0) := by
  refine ⟨?_, ?_, ?_, ?_, ?_, ?_, by decide⟩
  · intro hrc hlen
    obtain ⟨a, ha⟩ := List.length_eq_one.mp hlen
    simp [check_operating_mode, call_get_rtas_indices, hrc, ha]
  · intro hrc hlen
    match hl : (B.get_rtas_indices c.LED_TYPE_FAULT [] s.world).2.1, hlen with
    | a :: b :: t, _ => simp [check_operating_mode, call_get_rtas_indices, hrc, hl]
  · intro hlen
    have hnil := List.length_eq_zero.mp hlen
    by_cases hrc : (B.get_rtas_indices c.LED_TYPE_FAULT [] s.world).1 = 0 <;>
      simp [check_operating_mode, call_get_rtas_indices, hrc, hnil]
  · simp only [check_operating_mode, call_get_rtas_indices]
    split_ifs
    · rfl
    · split <;> rfl
  · simp only [check_operating_mode, call_get_rtas_indices]
    split_ifs
    · rfl
    · split <;> rfl
  · simp only [check_operating_mode, call_get_rtas_indices]
    split_ifs
    · rfl
    · split <;> rfl

/-- The classification at the sample backend answering one record. -/
theorem check_operating_mode_classifies_witness :
    (check_operating_mode (sampleBackend (0, [rtasLoc "U78" 0]) (0, sampleEnclosure))
        sampleConsts (initState [])).1 = 0 ∧
    (check_operating_mode (sampleBackend (0, [rtasLoc "U78" 0]) (0, sampleEnclosure))
        sampleConsts (initState [])).2.operating_mode = sampleConsts.LED_MODE_GUIDING_LIGHT :=
  (check_operating_mode_classifies (sampleBackend (0, [rtasLoc "U78" 0]) (0, sampleEnclosure))
    sampleConsts (initState [])).1 rfl rfl

/-! ## List construction -/

/-- C7: `get_indicator_list` for `LED_TYPE_FAULT` while the operating mode is
`LED_MODE_GUIDING_LIGHT` invokes `get_rtas_indices` only, and returns the list
that routine left, unchanged, with that routine's return code. -/
theorem fault_list_guiding_light_platform_only {W : Type} (B : Backend W) (c : Consts)
    (list : List loc_code) (s : State W)
    (hmode : s.operating_mode = c.LED_MODE_GUIDING_LIGHT) :
    (get_indicator_list B c c.LED_TYPE_FAULT list s).1
      = (B.get_rtas_indices c.LED_TYPE_FAULT list s.world).1 ∧
    (get_indicator_list B c c.LED_TYPE_FAULT list s).2.1
      = (B.get_rtas_indices c.LED_TYPE_FAULT list s.world).2.1 ∧
    (get_indicator_list B c c.LED_TYPE_FAULT list s).2.2.world
      = (B.get_rtas_indices c.LED_TYPE_FAULT list s.world).2.2 ∧
    (get_indicator_list B c c.LED_TYPE_FAULT list s).2.2.hw
      = s.hw ++ [Prim.get_rtas_indices c.LED_TYPE_FAULT] ∧
    (get_indicator_list B c c.LED_TYPE_FAULT list s).2.2.calls = s.calls ∧
    (get_indicator_list B c c.LED_TYPE_FAULT list s).2.2.operating_mode = s.operating_mode := by
  simp only [get_indicator_list, call_get_rtas_indices, hmode, and_self, if_true, ite_self]

/-- The platform-only fault list at the sample backend in Guiding Light mode:
the three platform records come back and the enclosure records are not
appended. -/
theorem fault_list_guiding_light_platform_only_witness :
    (get_indicator_list (sampleBackend (0, sampleFaults) (0, sampleEnclosure)) sampleConsts
        sampleConsts.LED_TYPE_FAULT [] ⟨[], 1, [], []⟩).2.1
      = ((sampleBackend (0, sampleFaults) (0, sampleEnclosure)).get_rtas_indices
          sampleConsts.LED_TYPE_FAULT [] []).2.1 ∧
    (get_indicator_list (sampleBackend (0, sampleFaults) (0, sampleEnclosure)) sampleConsts
        sampleConsts.LED_TYPE_FAULT [] ⟨[], 1, [], []⟩).2.2.hw
      = [] ++ [Prim.get_rtas_indices sampleConsts.LED_TYPE_FAULT] :=
  have h := fault_list_guiding_light_platform_only
    (sampleBackend (0, sampleFaults) (0, sampleEnclosure)) sampleConsts [] ⟨[], 1, [], []⟩ rfl
  ⟨h.2.1, h.2.2.2.1⟩

/-- C8, as stated, fails: with indicator `LED_TYPE_IDENT` and a platform query
that returns `-1`, `get_indicator_list` returns `-1` after invoking
`get_rtas_indices` only; `get_ses_indices` is not invoked. -/
theorem ident_list_failed_platform_query_skips_enclosure :
    (get_indicator_list (sampleBackend (-1, []) (0, sampleEnclosure)) sampleConsts
        sampleConsts.LED_TYPE_IDENT [] (initState [])).1 = -1 ∧
    (get_indicator_list (sampleBackend (-1, []) (0, sampleEnclosure)) sampleConsts
        sampleConsts.LED_TYPE_IDENT [] (initState [])).2.2.hw
      = [Prim.get_rtas_indices sampleConsts.LED_TYPE_IDENT] ∧
    Prim.get_ses_indices sampleConsts.LED_TYPE_IDENT ∉
      (get_indicator_list (sampleBackend (-1, []) (0, sampleEnclosure)) sampleConsts
        sampleConsts.LED_TYPE_IDENT [] (initState [])).2.2.hw := by
  decide

/-- C8, amended: `get_indicator_list` for `LED_TYPE_IDENT` invokes both
backends, `get_rtas_indices` and then `get_ses_indices` on the list the
platform query left, whatever the operating mode is, whenever the platform
query returns 0; the list and the world are then the ones `get_ses_indices`
left and the result is 0.  When the platform query returns a non-zero code,
that code is the result, `get_rtas_indices` is the only backend routine
invoked, and the list and the world are the ones it left. -/
theorem ident_list_invokes_both_backends {W : Type} (B : Backend W) (c : Consts)
    (hdistinct : c.LED_TYPE_IDENT ≠ c.LED_TYPE_FAULT)
    (list : List loc_code) (s : State W) :
    ((B.get_rtas_indices c.LED_TYPE_IDENT list s.world).1 = 0 →
      (get_indicator_list B c c.LED_TYPE_IDENT list s).2.2.hw
        = s.hw ++ [Prim.get_rtas_indices c.LED_TYPE_IDENT,
            Prim.get_ses_indices c.LED_TYPE_IDENT] ∧
      (get_indicator_list B c c.LED_TYPE_IDENT list s).2.1
        = (B.get_ses_indices c.LED_TYPE_IDENT
            (B.get_rtas_indices c.LED_TYPE_IDENT list s.world).2.1
            (B.get_rtas_indices c.LED_TYPE_IDENT list s.world).2.2).2.1 ∧
      (get_indicator_list B c c.LED_TYPE_IDENT list s).2.2.world
        = (B.get_ses_indices c.LED_TYPE_IDENT
            (B.get_rtas_indices c.LED_TYPE_IDENT list s.world).2.1
            (B.get_rtas_indices c.LED_TYPE_IDENT list s.world).2.2).2.2 ∧
      (get_indicator_list B c c.LED_TYPE_IDENT list s).1 = 0) ∧
    ((B.get_rtas_indices c.LED_TYPE_IDENT list s.world).1 ≠ 0 →
      (get_indicator_list B c c.LED_TYPE_IDENT list s).1
        = (B.get_rtas_indices c.LED_TYPE_IDENT list s.world).1 ∧
      (get_indicator_list B c c.LED_TYPE_IDENT list s).2.2.hw
        = s.hw ++ [Prim.get_rtas_indices c.LED_TYPE_IDENT] ∧
      (get_indicator_list B c c.LED_TYPE_IDENT list s).2.1
        = (B.get_rtas_indices c.LED_TYPE_IDENT list s.world).2.1 ∧
      (get_indicator_list B c c.LED_TYPE_IDENT list s).2.2.world
        = (B.get_rtas_indices c.LED_TYPE_IDENT list s.world).2.2) := by
  constructor
  · intro hrc
    simp [get_indicator_list, call_get_rtas_indices, call_get_ses_indices, hrc, hdistinct]
  · intro hrc
    simp [get_indicator_list, call_get_rtas_indices, hrc]

/-- The amended C8 at the sample backend, in Guiding Light mode: the platform
query is followed by the enclosure query; and with a failing platform query
the enclosure query is not made. -/
theorem ident_list_invokes_both_backends_witness :
    sampleConsts.LED_TYPE_IDENT ≠ sampleConsts.LED_TYPE_FAULT ∧
    (get_indicator_list (sampleBackend (0, sampleFaults) (0, sampleEnclosure)) sampleConsts
        sampleConsts.LED_TYPE_IDENT [] ⟨[], 1, [], []⟩).2.2.hw
      = [] ++ [Prim.get_rtas_indices sampleConsts.LED_TYPE_IDENT,
          Prim.get_ses_indices sampleConsts.LED_TYPE_IDENT] ∧
    (get_indicator_list (sampleBackend (-1, []) (0, sampleEnclosure)) sampleConsts
        sampleConsts.LED_TYPE_IDENT [] ⟨[], 1, [], []⟩).2.2.hw
      = [] ++ [Prim.get_rtas_indices sampleConsts.LED_TYPE_IDENT] :=
  ⟨by decide,
    ((ident_list_invokes_both_backends (sampleBackend (0, sampleFaults) (0, sampleEnclosure))
      sampleConsts (by decide) [] ⟨[], 1, [], []⟩).1 rfl).1,
    ((ident_list_invokes_both_backends (sampleBackend (-1, []) (0, sampleEnclosure))
      sampleConsts (by decide) [] ⟨[], 1, [], []⟩).2 (by decide)).2.1⟩

/-- C9: the return code of `get_indicator_list` is always the return code of
`get_rtas_indices`.  When that code is not zero, `get_ses_indices` is not
invoked and the list is the one `get_rtas_indices` left.  When it is zero the
result is zero whatever `get_ses_indices` returns: with the sample backend
whose enclosure query returns `-5`, the result is 0. -/
theorem list_return_code_is_platform_code {W : Type} (B : Backend W) (c : Consts)
    (indicator : Int) (list : List loc_code) (s : State W) :
    (get_indicator_list B c indicator list s).1
      = (B.get_rtas_indices indicator list s.world).1 ∧
    ((B.get_rtas_indices indicator list s.world).1 ≠ 0 →
      (get_indicator_list B c indicator list s).2.1
        = (B.get_rtas_indices indicator list s.world).2.1 ∧
      (get_indicator_list B c indicator list s).2.2.hw
        = s.hw ++ [Prim.get_rtas_indices indicator] ∧
      (get_indicator_list B c indicator list s).2.2.world
        = (B.get_rtas_indices indicator list s.world).2.2) ∧
    ((B.get_rtas_indices indicator list s.world).1 = 0 →
      (get_indicator_list B c indicator list s).1 = 0) ∧
    ((get_indicator_list (sampleBackend (0, sampleFaults) (-5, sampleEnclosure)) sampleConsts
        sampleConsts.LED_TYPE_IDENT [] (initState [])).1 = 0 ∧
     (get_indicator_list (sampleBackend (0, sampleFaults) (-5, sampleEnclosure)) sampleConsts
        sampleConsts.LED_TYPE_IDENT [] (initState [])).2.2.hw
      = [Prim.get_rtas_indices 0, Prim.get_ses_indices 0]) := by
  have hrc : (get_indicator_list B c indicator list s).1
      = (B.get_rtas_indices indicator list s.world).1 := by
    simp only [get_indicator_list, call_get_rtas_indices]
    split_ifs <;> rfl
  refine ⟨hrc, ?_, ?_, by decide⟩
  · intro h
    simp [get_indicator_list, call_get_rtas_indices, h]
  · intro h
    rw [hrc, h]

/-- The return-code theorem at the sample backend whose platform query
returns `-1`. -/
theorem list_return_code_is_platform_code_witness :
    (get_indicator_list (sampleBackend (-1, []) (0, sampleEnclosure)) sampleConsts 0
        [] (initState [])).1 = -1 ∧
    (get_indicator_list (sampleBackend (-1, []) (0, sampleEnclosure)) sampleConsts 0
        [] (initState [])).2.2.hw = [] ++ [Prim.get_rtas_indices 0] :=
  have h := list_return_code_is_platform_code (sampleBackend (-1, []) (0, sampleEnclosure))
    sampleConsts 0 [] (initState [])
  ⟨h.1, (h.2.1 (by decide)).2.1⟩

/-! ## Check-log indicator -/

/-- A call of `set_indicator_state` invokes at most one backend routine, a
write routine on the given record with the given value. -/
theorem set_indicator_state_hw {W : Type} (B : Backend W) (c : Consts)
    (indicator : Int) (loc : loc_code) (new_value : Int) (s : State W) :
    (set_indicator_state B c indicator loc new_value s).2.hw = s.hw ∨
    (set_indicator_state B c indicator loc new_value s).2.hw
      = s.hw ++ [Prim.set_rtas_indicator indicator loc new_value] ∨
    (set_indicator_state B c indicator loc new_value s).2.hw
      = s.hw ++ [Prim.set_ses_indicator indicator loc new_value] := by
  unfold set_indicator_state
  split_ifs
  · exact Or.inr (Or.inl rfl)
  · exact Or.inr (Or.inr rfl)
  · exact Or.inl rfl

/-- The common body of the two check-log routines, for any value written.
A failed platform query is returned as it is and nothing is written.  After a
successful query with a first record the result is the result of
`set_indicator_state` for `LED_TYPE_FAULT` on that record, called in the state
the query left: the return code and the world are the ones of
`set_rtas_indicator` on a platform record, of `set_ses_indicator` on an
enclosure record, and `-1` with the world untouched on any other record. -/
theorem check_log_indicator_spec {W : Type} (B : Backend W) (c : Consts)
    (value : Int) (s : State W) :
    ((B.get_rtas_indices c.LED_TYPE_FAULT [] s.world).1 ≠ 0 →
      check_log_indicator B c value s
        = some ((B.get_rtas_indices c.LED_TYPE_FAULT [] s.world).1,
            ⟨(B.get_rtas_indices c.LED_TYPE_FAULT [] s.world).2.2, s.operating_mode,
              s.hw ++ [Prim.get_rtas_indices c.LED_TYPE_FAULT], s.calls⟩)) ∧
    (∀ first rest, (B.get_rtas_indices c.LED_TYPE_FAULT [] s.world).1 = 0 →
      (B.get_rtas_indices c.LED_TYPE_FAULT [] s.world).2.1 = first :: rest →
      check_log_indicator B c value s
        = some (set_indicator_state B c c.LED_TYPE_FAULT first value
            ⟨(B.get_rtas_indices c.LED_TYPE_FAULT [] s.world).2.2, s.operating_mode,
            s.hw ++ [Prim.get_rtas_indices c.LED_TYPE_FAULT], s.calls⟩) ∧
      (first.type = c.TYPE_RTAS →
        check_log_indicator B c value s
        = some ((B.set_rtas_indicator c.LED_TYPE_FAULT first value (B.get_rtas_indices c.LED_TYPE_FAULT [] s.world).2.2).1,
            ⟨(B.set_rtas_indicator c.LED_TYPE_FAULT first value (B.get_rtas_indices c.LED_TYPE_FAULT [] s.world).2.2).2, s.operating_mode,
              s.hw ++ [Prim.get_rtas_indices c.LED_TYPE_FAULT, Prim.set_rtas_indicator c.LED_TYPE_FAULT first value],
              s.calls ++ [Call.write c.LED_TYPE_FAULT first value (B.set_rtas_indicator c.LED_TYPE_FAULT first value (B.get_rtas_indices c.LED_TYPE_FAULT [] s.world).2.2).1]⟩)) ∧
      (first.type ≠ c.TYPE_RTAS → first.type = c.TYPE_SES →
        check_log_indicator B c value s
        = some ((B.set_ses_indicator c.LED_TYPE_FAULT first value (B.get_rtas_indices c.LED_TYPE_FAULT [] s.world).2.2).1,
            ⟨(B.set_ses_indicator c.LED_TYPE_FAULT first value (B.get_rtas_indices c.LED_TYPE_FAULT [] s.world).2.2).2, s.operating_mode,
              s.hw ++ [Prim.get_rtas_indices c.LED_TYPE_FAULT, Prim.set_ses_indicator c.LED_TYPE_FAULT first value],
              s.calls ++ [Call.write c.LED_TYPE_FAULT first value (B.set_ses_indicator c.LED_TYPE_FAULT first value (B.get_rtas_indices c.LED_TYPE_FAULT [] s.world).2.2).1]⟩)) ∧
      (first.type ≠ c.TYPE_RTAS → first.type ≠ c.TYPE_SES →
        check_log_indicator B c value s
        = some (-1,
            ⟨(B.get_rtas_indices c.LED_TYPE_FAULT [] s.world).2.2, s.operating_mode,
              s.hw ++ [Prim.get_rtas_indices c.LED_TYPE_FAULT],
              s.calls ++ [Call.write c.LED_TYPE_FAULT first value (-1)]⟩)) ∧
      (∃ rc s1, check_log_indicator B c value s = some (rc, s1) ∧
        s1.calls = s.calls ++ [Call.write c.LED_TYPE_FAULT first value rc] ∧
        (s1.hw = s.hw ++ [Prim.get_rtas_indices c.LED_TYPE_FAULT] ∨
         s1.hw = s.hw ++ [Prim.get_rtas_indices c.LED_TYPE_FAULT,
            Prim.set_rtas_indicator c.LED_TYPE_FAULT first value] ∨
         s1.hw = s.hw ++ [Prim.get_rtas_indices c.LED_TYPE_FAULT,
            Prim.set_ses_indicator c.LED_TYPE_FAULT first value]))) := by
  constructor
  · intro h
    simp [check_log_indicator, call_get_rtas_indices, h]
  · intro first rest hrc hl
    have heq : check_log_indicator B c value s
        = some (set_indicator_state B c c.LED_TYPE_FAULT first value
            ⟨(B.get_rtas_indices c.LED_TYPE_FAULT [] s.world).2.2, s.operating_mode,
              s.hw ++ [Prim.get_rtas_indices c.LED_TYPE_FAULT], s.calls⟩) := by
      simp [check_log_indicator, call_get_rtas_indices, hrc, hl]
    have hc := set_indicator_state_calls B c c.LED_TYPE_FAULT first value
      ⟨(B.get_rtas_indices c.LED_TYPE_FAULT [] s.world).2.2, s.operating_mode,
        s.hw ++ [Prim.get_rtas_indices c.LED_TYPE_FAULT], s.calls⟩
    have hh := set_indicator_state_hw B c c.LED_TYPE_FAULT first value
      ⟨(B.get_rtas_indices c.LED_TYPE_FAULT [] s.world).2.2, s.operating_mode,
        s.hw ++ [Prim.get_rtas_indices c.LED_TYPE_FAULT], s.calls⟩
    refine ⟨heq, ?_, ?_, ?_,
      (set_indicator_state B c c.LED_TYPE_FAULT first value
        ⟨(B.get_rtas_indices c.LED_TYPE_FAULT [] s.world).2.2, s.operating_mode,
        s.hw ++ [Prim.get_rtas_indices c.LED_TYPE_FAULT], s.calls⟩).1,
      (set_indicator_state B c c.LED_TYPE_FAULT first value
        ⟨(B.get_rtas_indices c.LED_TYPE_FAULT [] s.world).2.2, s.operating_mode,
        s.hw ++ [Prim.get_rtas_indices c.LED_TYPE_FAULT], s.calls⟩).2, heq, hc, ?_⟩
    · intro ht
      rw [heq]
      unfold set_indicator_state
      rw [if_pos ht]
      simp
    · intro ht1 ht2
      rw [heq]
      unfold set_indicator_state
      rw [if_neg ht1, if_pos ht2]
      simp
    · intro ht1 ht2
      rw [heq]
      unfold set_indicator_state
      rw [if_neg ht1, if_neg ht2]
    · simpa [List.append_assoc] using hh

/-- C10: `enable_check_log_indicator` and `disable_check_log_indicator`.
When the platform query for `LED_TYPE_FAULT` returns a non-zero code, that
code is returned, no `set_indicator_state` call is made and no other backend
routine is invoked.  When it returns 0 with a non-empty list, the result is
the result of one `set_indicator_state` call for `LED_TYPE_FAULT` on the first
record of that list, with `LED_STATE_ON` for enable and `LED_STATE_OFF` for
disable, made in the state the query left.  So the return code is the one of
the backend write routine that the type of the first record selects
(`set_rtas_indicator` or `set_ses_indicator`, called with `LED_TYPE_FAULT`,
that record and that state), the world is the one that routine left, and the
backend routines invoked are `get_rtas_indices` followed by that one routine;
on a record of any other type the code is `-1` and nothing is written.  No
other record is written and `get_ses_indices` is not invoked. -/
theorem check_log_indicator_writes_first_record {W : Type} (B : Backend W) (c : Consts)
    (s : State W) :
    ((B.get_rtas_indices c.LED_TYPE_FAULT [] s.world).1 ≠ 0 →
      enable_check_log_indicator B c s
        = some ((B.get_rtas_indices c.LED_TYPE_FAULT [] s.world).1,
            ⟨(B.get_rtas_indices c.LED_TYPE_FAULT [] s.world).2.2, s.operating_mode,
              s.hw ++ [Prim.get_rtas_indices c.LED_TYPE_FAULT], s.calls⟩) ∧
      disable_check_log_indicator B c s
        = some ((B.get_rtas_indices c.LED_TYPE_FAULT [] s.world).1,
            ⟨(B.get_rtas_indices c.LED_TYPE_FAULT [] s.world).2.2, s.operating_mode,
              s.hw ++ [Prim.get_rtas_indices c.LED_TYPE_FAULT], s.calls⟩)) ∧
    (∀ first rest, (B.get_rtas_indices c.LED_TYPE_FAULT [] s.world).1 = 0 →
      (B.get_rtas_indices c.LED_TYPE_FAULT [] s.world).2.1 = first :: rest →
      enable_check_log_indicator B c s
        = some (set_indicator_state B c c.LED_TYPE_FAULT first c.LED_STATE_ON
            ⟨(B.get_rtas_indices c.LED_TYPE_FAULT [] s.world).2.2, s.operating_mode,
            s.hw ++ [Prim.get_rtas_indices c.LED_TYPE_FAULT], s.calls⟩) ∧
      (first.type = c.TYPE_RTAS →
        enable_check_log_indicator B c s
        = some ((B.set_rtas_indicator c.LED_TYPE_FAULT first c.LED_STATE_ON (B.get_rtas_indices c.LED_TYPE_FAULT [] s.world).2.2).1,
            ⟨(B.set_rtas_indicator c.LED_TYPE_FAULT first c.LED_STATE_ON (B.get_rtas_indices c.LED_TYPE_FAULT [] s.world).2.2).2, s.operating_mode,
              s.hw ++ [Prim.get_rtas_indices c.LED_TYPE_FAULT, Prim.set_rtas_indicator c.LED_TYPE_FAULT first c.LED_STATE_ON],
              s.calls ++ [Call.write c.LED_TYPE_FAULT first c.LED_STATE_ON (B.set_rtas_indicator c.LED_TYPE_FAULT first c.LED_STATE_ON (B.get_rtas_indices c.LED_TYPE_FAULT [] s.world).2.2).1]⟩)) ∧
      (first.type ≠ c.TYPE_RTAS → first.type = c.TYPE_SES →
        enable_check_log_indicator B c s
        = some ((B.set_ses_indicator c.LED_TYPE_FAULT first c.LED_STATE_ON (B.get_rtas_indices c.LED_TYPE_FAULT [] s.world).2.2).1,
            ⟨(B.set_ses_indicator c.LED_TYPE_FAULT first c.LED_STATE_ON (B.get_rtas_indices c.LED_TYPE_FAULT [] s.world).2.2).2, s.operating_mode,
              s.hw ++ [Prim.get_rtas_indices c.LED_TYPE_FAULT, Prim.set_ses_indicator c.LED_TYPE_FAULT first c.LED_STATE_ON],
              s.calls ++ [Call.write c.LED_TYPE_FAULT first c.LED_STATE_ON (B.set_ses_indicator c.LED_TYPE_FAULT first c.LED_STATE_ON (B.get_rtas_indices c.LED_TYPE_FAULT [] s.world).2.2).1]⟩)) ∧
      (first.type ≠ c.TYPE_RTAS → first.type ≠ c.TYPE_SES →
        enable_check_log_indicator B c s
        = some (-1,
            ⟨(B.get_rtas_indices c.LED_TYPE_FAULT [] s.world).2.2, s.operating_mode,
              s.hw ++ [Prim.get_rtas_indices c.LED_TYPE_FAULT],
              s.calls ++ [Call.write c.LED_TYPE_FAULT first c.LED_STATE_ON (-1)]⟩)) ∧
      (∃ rc s1, enable_check_log_indicator B c s = some (rc, s1) ∧
        s1.calls = s.calls ++ [Call.write c.LED_TYPE_FAULT first c.LED_STATE_ON rc] ∧
        (s1.hw = s.hw ++ [Prim.get_rtas_indices c.LED_TYPE_FAULT] ∨
         s1.hw = s.hw ++ [Prim.get_rtas_indices c.LED_TYPE_FAULT,
            Prim.set_rtas_indicator c.LED_TYPE_FAULT first c.LED_STATE_ON] ∨
         s1.hw = s.hw ++ [Prim.get_rtas_indices c.LED_TYPE_FAULT,
            Prim.set_ses_indicator c.LED_TYPE_FAULT first c.LED_STATE_ON])) ∧
      disable_check_log_indicator B c s
        = some (set_indicator_state B c c.LED_TYPE_FAULT first c.LED_STATE_OFF
            ⟨(B.get_rtas_indices c.LED_TYPE_FAULT [] s.world).2.2, s.operating_mode,
            s.hw ++ [Prim.get_rtas_indices c.LED_TYPE_FAULT], s.calls⟩) ∧
      (first.type = c.TYPE_RTAS →
        disable_check_log_indicator B c s
        = some ((B.set_rtas_indicator c.LED_TYPE_FAULT first c.LED_STATE_OFF (B.get_rtas_indices c.LED_TYPE_FAULT [] s.world).2.2).1,
            ⟨(B.set_rtas_indicator c.LED_TYPE_FAULT first c.LED_STATE_OFF (B.get_rtas_indices c.LED_TYPE_FAULT [] s.world).2.2).2, s.operating_mode,
              s.hw ++ [Prim.get_rtas_indices c.LED_TYPE_FAULT, Prim.set_rtas_indicator c.LED_TYPE_FAULT first c.LED_STATE_OFF],
              s.calls ++ [Call.write c.LED_TYPE_FAULT first c.LED_STATE_OFF (B.set_rtas_indicator c.LED_TYPE_FAULT first c.LED_STATE_OFF (B.get_rtas_indices c.LED_TYPE_FAULT [] s.world).2.2).1]⟩)) ∧
      (first.type ≠ c.TYPE_RTAS → first.type = c.TYPE_SES →
        disable_check_log_indicator B c s
        = some ((B.set_ses_indicator c.LED_TYPE_FAULT first c.LED_STATE_OFF (B.get_rtas_indices c.LED_TYPE_FAULT [] s.world).2.2).1,
            ⟨(B.set_ses_indicator c.LED_TYPE_FAULT first c.LED_STATE_OFF (B.get_rtas_indices c.LED_TYPE_FAULT [] s.world).2.2).2, s.operating_mode,
              s.hw ++ [Prim.get_rtas_indices c.LED_TYPE_FAULT, Prim.set_ses_indicator c.LED_TYPE_FAULT first c.LED_STATE_OFF],
              s.calls ++ [Call.write c.LED_TYPE_FAULT first c.LED_STATE_OFF (B.set_ses_indicator c.LED_TYPE_FAULT first c.LED_STATE_OFF (B.get_rtas_indices c.LED_TYPE_FAULT [] s.world).2.2).1]⟩)) ∧
      (first.type ≠ c.TYPE_RTAS → first.type ≠ c.TYPE_SES →
        disable_check_log_indicator B c s
        = some (-1,
            ⟨(B.get_rtas_indices c.LED_TYPE_FAULT [] s.world).2.2, s.operating_mode,
              s.hw ++ [Prim.get_rtas_indices c.LED_TYPE_FAULT],
              s.calls ++ [Call.write c.LED_TYPE_FAULT first c.LED_STATE_OFF (-1)]⟩)) ∧
      (∃ rc s1, disable_check_log_indicator B c s = some (rc, s1) ∧
        s1.calls = s.calls ++ [Call.write c.LED_TYPE_FAULT first c.LED_STATE_OFF rc] ∧
        (s1.hw = s.hw ++ [Prim.get_rtas_indices c.LED_TYPE_FAULT] ∨
         s1.hw = s.hw ++ [Prim.get_rtas_indices c.LED_TYPE_FAULT,
            Prim.set_rtas_indicator c.LED_TYPE_FAULT first c.LED_STATE_OFF] ∨
         s1.hw = s.hw ++ [Prim.get_rtas_indices c.LED_TYPE_FAULT,
            Prim.set_ses_indicator c.LED_TYPE_FAULT first c.LED_STATE_OFF]))) :=
  ⟨fun h => ⟨(check_log_indicator_spec B c c.LED_STATE_ON s).1 h,
      (check_log_indicator_spec B c c.LED_STATE_OFF s).1 h⟩,
    fun first rest hrc hl =>
      have hon := (check_log_indicator_spec B c c.LED_STATE_ON s).2 first rest hrc hl
      have hoff := (check_log_indicator_spec B c c.LED_STATE_OFF s).2 first rest hrc hl
      ⟨hon.1, hon.2.1, hon.2.2.1, hon.2.2.2.1, hon.2.2.2.2,
        hoff.1, hoff.2.1, hoff.2.2.1, hoff.2.2.2.1, hoff.2.2.2.2⟩⟩

/-- The check-log theorem at the sample backend: with a failing platform
query the code `-1` comes back and nothing is written; with three fault
records, all OFF, enable returns the 0 of `set_rtas_indicator` on the first of
them, which is ON in the world afterwards while the others are not, and
disable on a world where it is ON turns it OFF. -/
theorem check_log_indicator_writes_first_record_witness :
    (enable_check_log_indicator (sampleBackend (-1, []) (0, sampleEnclosure)) sampleConsts
        (initState [])
      = some (-1, ⟨[], 0, [] ++ [Prim.get_rtas_indices 1], []⟩)) ∧
    (enable_check_log_indicator (sampleBackend (0, sampleFaults) (0, sampleEnclosure))
        sampleConsts (initState [(0, 0), (1, 0), (2, 0)])
      = some (0, ⟨[(0, 1), (1, 0), (2, 0)], 0,
          [] ++ [Prim.get_rtas_indices 1, Prim.set_rtas_indicator 1 (rtasLoc "U78" 0) 1],
          [] ++ [Call.write 1 (rtasLoc "U78" 0) 1 0]⟩)) ∧
    (disable_check_log_indicator (sampleBackend (0, sampleFaults) (0, sampleEnclosure))
        sampleConsts (initState [(0, 1), (1, 1), (2, 1)])
      = some (0, ⟨[(0, 0), (1, 1), (2, 1)], 0,
          [] ++ [Prim.get_rtas_indices 1, Prim.set_rtas_indicator 1 (rtasLoc "U78" 0) 0],
          [] ++ [Call.write 1 (rtasLoc "U78" 0) 0 0]⟩)) :=
  ⟨((check_log_indicator_writes_first_record (sampleBackend (-1, []) (0, sampleEnclosure))
      sampleConsts (initState [])).1 (by decide)).1,
    ((check_log_indicator_writes_first_record
      (sampleBackend (0, sampleFaults) (0, sampleEnclosure))
      sampleConsts (initState [(0, 0), (1, 0), (2, 0)])).2 (rtasLoc "U78" 0)
        [rtasLoc "U78-P1" 1, rtasLoc "U78-P1-C2" 2] rfl rfl).2.1 rfl,
    ((check_log_indicator_writes_first_record
      (sampleBackend (0, sampleFaults) (0, sampleEnclosure))
      sampleConsts (initState [(0, 1), (1, 1), (2, 1)])).2 (rtasLoc "U78" 0)
        [rtasLoc "U78-P1" 1, rtasLoc "U78-P1-C2" 2] rfl rfl).2.2.2.2.2.2.1 rfl⟩

/-! ## Operating mode: a failed platform query -/

/-- C11, as stated, fails: when the platform query fails with `-5`,
`check_operating_mode` returns `-1`, not `-5`. -/
theorem check_operating_mode_does_not_propagate_code :
    ((sampleBackend (-5, []) (0, sampleEnclosure)).get_rtas_indices
        sampleConsts.LED_TYPE_FAULT [] []).1 = -5 ∧
    (check_operating_mode (sampleBackend (-5, []) (0, sampleEnclosure)) sampleConsts
        (initState [])).1 = -1 ∧
    (check_operating_mode (sampleBackend (-5, []) (0, sampleEnclosure)) sampleConsts
        (initState [])).1
      ≠ ((sampleBackend (-5, []) (0, sampleEnclosure)).get_rtas_indices
          sampleConsts.LED_TYPE_FAULT [] []).1 := by
  decide

/-- C11, amended: when the platform query for `LED_TYPE_FAULT` fails with a
non-zero code, `check_operating_mode` returns `-1`, which is not zero, whatever
that code is; the operating mode is the one before the call and no other
backend routine is invoked. -/
theorem check_operating_mode_failed_query {W : Type} (B : Backend W) (c : Consts)
    (s : State W) (hrc : (B.get_rtas_indices c.LED_TYPE_FAULT [] s.world).1 ≠ 0) :
    (check_operating_mode B c s).1 = -1 ∧
    (check_operating_mode B c s).1 ≠ 0 ∧
    (check_operating_mode B c s).2.operating_mode = s.operating_mode ∧
    (check_operating_mode B c s).2.hw = s.hw ++ [Prim.get_rtas_indices c.LED_TYPE_FAULT] := by
  simp [check_operating_mode, call_get_rtas_indices, hrc]

/-- The failed-query theorem at the sample backend whose platform query
returns `-5`. -/
theorem check_operating_mode_failed_query_witness :
    (check_operating_mode (sampleBackend (-5, []) (0, sampleEnclosure)) sampleConsts
        (initState [])).1 = -1 ∧
    (check_operating_mode (sampleBackend (-5, []) (0, sampleEnclosure)) sampleConsts
        (initState [])).2.operating_mode = 0 :=
  have h := check_operating_mode_failed_query (sampleBackend (-5, []) (0, sampleEnclosure))
    sampleConsts (initState []) (by decide)
  ⟨h.1, h.2.2.1⟩

/-! ## Search by location code -/

/-- C12: `get_indicator_for_loc_code` returns a record if and only if some
record of the list has a code equal to the given string; the record returned
has that code and no record before it has; the result is `NULL` when no record
has the code, in particular on the empty list.  The result is a pointer into
the list it was given, which the function does not store to. -/
theorem find_first_record_with_code (list : List loc_code) (location : String) :
    (get_indicator_for_loc_code list location ≠ [] ↔ ∃ r ∈ list, r.code = location) ∧
    (∀ r rest, get_indicator_for_loc_code list location = r :: rest →
      r.code = location ∧
      ∃ before, list = before ++ r :: rest ∧ ∀ x ∈ before, x.code ≠ location) ∧
    ((∀ r ∈ list, r.code ≠ location) → get_indicator_for_loc_code list location = []) ∧
    get_indicator_for_loc_code [] location = [] ∧
    (get_indicator_for_loc_code
        [sesLoc "U78" 0, sesLoc "U78-P1" 1, sesLoc "U78-P1" 2] "U78-P1"
      = [sesLoc "U78-P1" 1, sesLoc "U78-P1" 2]) ∧
    get_indicator_for_loc_code sampleEnclosure "U78-P" = [] := by
  refine ⟨?_, ?_, ?_, rfl, by decide, by decide⟩
  · induction list with
    | nil => simp [get_indicator_for_loc_code]
    | cons loc next ih =>
      by_cases h : loc.code = location
      · simp [get_indicator_for_loc_code, h]
      · simp [get_indicator_for_loc_code, h, ih]
  · induction list with
    | nil => intro r rest h; simp [get_indicator_for_loc_code] at h
    | cons loc next ih =>
      intro r rest hres
      by_cases h : loc.code = location
      · simp only [get_indicator_for_loc_code, if_pos h] at hres
        obtain ⟨h1, h2⟩ := List.cons.inj hres
        subst h1 h2
        exact ⟨h, [], rfl, by simp⟩
      · simp only [get_indicator_for_loc_code, if_neg h] at hres
        obtain ⟨hc, before, hb, hall⟩ := ih r rest hres
        refine ⟨hc, loc :: before, by simp [hb], ?_⟩
        intro x hx
        rcases List.mem_cons.mp hx with hx1 | hx1
        · rw [hx1]; exact h
        · exact hall x hx1
  · induction list with
    | nil => intro _; rfl
    | cons loc next ih =>
      intro hall
      have h : loc.code ≠ location := hall loc (by simp)
      simp only [get_indicator_for_loc_code, if_neg h]
      exact ih (fun r hr => hall r (by simp [hr]))

/-- The search theorem on the sample enclosure: the record found for
`"U78-P1"` is the second one. -/
theorem find_first_record_with_code_witness :
    (sesLoc "U78-P1" 1).code = "U78-P1" ∧
    ∃ before, sampleEnclosure = before ++ sesLoc "U78-P1" 1 :: [sesLoc "U78-P1-C2" 2] ∧
      ∀ x ∈ before, x.code ≠ "U78-P1" :=
  (find_first_record_with_code sampleEnclosure "U78-P1").2.1 (sesLoc "U78-P1" 1)
    [sesLoc "U78-P1-C2" 2] (by decide)

/-! ## Location codes -/

/-- For a string shorter than `2 ^ 31`, `strlen - 1` converted to `int` is the
length minus one, `-1` for the empty string. -/
theorem size_t_to_int_strlen_pred (n : Nat) (h : n < 2 ^ 31) :
    size_t_to_int (size_t_sub n 1) = (n : Int) - 1 := by
  unfold size_t_to_int size_t_sub
  split_ifs <;> omega

/-- Without a `'-'` in the string the loop of `truncate_loc_code` runs out. -/
theorem truncate_loc_code_loop_none (l : List Char) (h : '-' ∉ l) (k : Nat) :
    truncate_loc_code_loop l k = none := by
  induction k with
  | zero => rfl
  | succ i ih =>
    unfold truncate_loc_code_loop
    rw [if_neg, ih]
    intro hc
    exact h (List.getElem?_mem hc)

/-- The character at the index where a string is split. -/
theorem getElem?_at_split (xs ys : List Char) (a : Char) (n : Nat) (hn : n = xs.length) :
    (xs ++ a :: ys)[n]? = some a := by
  subst hn
  rw [List.getElem?_append_right (Nat.le_refl _)]
  simp

/-- Started at the end of `pre ++ '-' :: suf`, with no `'-'` in `suf`, the loop
of `truncate_loc_code` stops at the index of that `'-'`. -/
theorem truncate_loc_code_loop_last (pre suf : List Char) (hsuf : '-' ∉ suf) :
    ∀ tail : List Char,
      truncate_loc_code_loop (pre ++ '-' :: (suf ++ tail)) (pre.length + 1 + suf.length)
        = some pre.length := by
  induction suf using List.reverseRecOn with
  | nil =>
    intro tail
    show truncate_loc_code_loop _ (pre.length + 1) = _
    unfold truncate_loc_code_loop
    rw [if_pos]
    exact getElem?_at_split pre _ '-' _ rfl
  | append_singleton l a ih =>
    intro tail
    have ha : a ≠ '-' := fun e => hsuf (by simp [e])
    have hl : '-' ∉ l := fun e => hsuf (by simp [e])
    have hk : pre.length + 1 + (l ++ [a]).length = (pre.length + 1 + l.length) + 1 := by
      simp; omega
    have hlist : pre ++ '-' :: (l ++ [a] ++ tail) = pre ++ '-' :: (l ++ (a :: tail)) := by simp
    rw [hk, hlist]
    unfold truncate_loc_code_loop
    have hget : (pre ++ '-' :: (l ++ a :: tail))[pre.length + 1 + l.length]? = some a := by
      have := getElem?_at_split (pre ++ '-' :: l) tail a (pre.length + 1 + l.length)
        (by simp; omega)
      simpa using this
    rw [hget, if_neg (by simpa using ha)]
    exact ih hl (a :: tail)

/-- A string with a `'-'` splits at its last `'-'`. -/
theorem exists_last_dash (l : List Char) (h : '-' ∈ l) :
    ∃ pre suf, l = pre ++ '-' :: suf ∧ '-' ∉ suf := by
  induction l with
  | nil => simp at h
  | cons a t ih =>
    by_cases ht : '-' ∈ t
    · obtain ⟨pre, suf, hl, hs⟩ := ih ht
      exact ⟨a :: pre, suf, by simp [hl], hs⟩
    · have ha : a = '-' := by
        rcases List.mem_cons.mp h with h1 | h1
        · exact h1.symm
        · exact absurd h1 ht
      exact ⟨[], t, by simp [ha], ht⟩

/-- `truncate_loc_code` on a string split at its last `'-'`. -/
theorem truncate_loc_code_of_split (loccode : String) (hlen : loccode.length < 2 ^ 31)
    (pre suf : List Char) (hsplit : loccode.data = pre ++ '-' :: suf) (hsuf : '-' ∉ suf) :
    truncate_loc_code loccode = (1, String.mk pre) := by
  have hl : loccode.length = pre.length + 1 + suf.length := by
    rw [String.length, hsplit]; simp; omega
  have hi := size_t_to_int_strlen_pred loccode.length hlen
  have hloop := truncate_loc_code_loop_last pre suf hsuf []
  simp only [List.append_nil] at hloop
  unfold truncate_loc_code
  simp only [hi]
  rw [if_neg (by omega)]
  have hk : ((loccode.length : Int) - 1).toNat + 1 = pre.length + 1 + suf.length := by omega
  rw [hk, hsplit, hloop]
  simp

/-- `truncate_loc_code` on a string without `'-'`. -/
theorem truncate_loc_code_of_no_dash (loccode : String) (h : '-' ∉ loccode.data) :
    truncate_loc_code loccode = (0, loccode) := by
  unfold truncate_loc_code
  simp only [truncate_loc_code_loop_none _ h]
  split_ifs <;> rfl

/-- C13: `truncate_loc_code` on a location code (shorter than `2 ^ 31`
characters, so that its length fits the `int` index).  If the code contains a
`'-'` the result is 1 and the code becomes the characters before its last
`'-'`; if it contains none, the empty code included, the result is 0 and the
code is left as it is.  `"U78-P1-C2"` becomes `"U78-P1"`; `"U78"` stays. -/
theorem truncate_loc_code_at_last_dash (loccode : String)
    (hlen : loccode.length < 2 ^ 31) :
    ('-' ∈ loccode.data → (truncate_loc_code loccode).1 = 1) ∧
    (∀ pre suf, loccode.data = pre ++ '-' :: suf → '-' ∉ suf →
      truncate_loc_code loccode = (1, String.mk pre)) ∧
    ('-' ∉ loccode.data → truncate_loc_code loccode = (0, loccode)) ∧
    truncate_loc_code "U78-P1-C2" = (1, "U78-P1") ∧
    truncate_loc_code "U78" = (0, "U78") ∧
    truncate_loc_code "" = (0, "") := by
  refine ⟨?_, ?_, truncate_loc_code_of_no_dash loccode, by decide, by decide, by decide⟩
  · intro h
    obtain ⟨pre, suf, hsplit, hsuf⟩ := exists_last_dash loccode.data h
    rw [truncate_loc_code_of_split loccode hlen pre suf hsplit hsuf]
  · exact truncate_loc_code_of_split loccode hlen

/-- The truncation theorem at `"U78-P1-C2"`, split at its last `'-'`. -/
theorem truncate_loc_code_at_last_dash_witness :
    truncate_loc_code "U78-P1-C2" = (1, String.mk ['U', '7', '8', '-', 'P', '1']) :=
  (truncate_loc_code_at_last_dash "U78-P1-C2" (by decide)).2.1
    ['U', '7', '8', '-', 'P', '1'] ['C', '2'] (by decide) (by decide)

/-- The result of `strchr` is `NULL` exactly when the character does not occur. -/
theorem strchr_eq_none_iff (l : List Char) (ch : Char) : strchr l ch = none ↔ ch ∉ l := by
  induction l with
  | nil => simp [strchr]
  | cons x xs ih =>
    by_cases h : x = ch
    · simp [strchr, h]
    · have h2 : ¬ ch = x := fun e => h e.symm
      simp [strchr, h, h2, ih]

/-- C14: `is_enclosure_loc_code` returns 1 if and only if the code of the
record contains no `'-'`, and 0 otherwise.  `"U78"` gives 1 and `"U78-P1"`
gives 0. -/
theorem is_enclosure_loc_code_iff_no_dash (loc : loc_code) :
    (is_enclosure_loc_code loc = 1 ↔ '-' ∉ loc.code.data) ∧
    (is_enclosure_loc_code loc = 0 ↔ '-' ∈ loc.code.data) ∧
    is_enclosure_loc_code (sesLoc "U78" 0) = 1 ∧
    is_enclosure_loc_code (sesLoc "U78-P1" 1) = 0 := by
  refine ⟨?_, ?_, by decide, by decide⟩
  · unfold is_enclosure_loc_code
    by_cases h : '-' ∈ loc.code.data
    · simp [(strchr_eq_none_iff loc.code.data '-').not.mpr (not_not.mpr h), h]
    · simp [(strchr_eq_none_iff loc.code.data '-').mpr h, h]
  · unfold is_enclosure_loc_code
    by_cases h : '-' ∈ loc.code.data
    · simp [(strchr_eq_none_iff loc.code.data '-').not.mpr (not_not.mpr h), h]
    · simp [(strchr_eq_none_iff loc.code.data '-').mpr h, h]

/-! ## Indicator type registry -/

/-- The loop of `get_indicator_type` over the table, written out. -/
theorem get_indicator_type_eq (c : Consts) (d : String) :
    get_indicator_type c d
      = if c.LED_DESC_IDENT = d then c.LED_TYPE_IDENT
        else if c.LED_DESC_FAULT = d then c.LED_TYPE_FAULT
        else if c.LED_DESC_ATTN = d then c.LED_TYPE_ATTN
        else -1 := by
  simp only [get_indicator_type, led_type_map, get_indicator_type_loop]

/-- The loop of `get_indicator_desc` over the table, written out. -/
theorem get_indicator_desc_eq (c : Consts) (n : Int) :
    get_indicator_desc c n
      = if c.LED_TYPE_IDENT = -1 then some "Unknown"
        else if c.LED_TYPE_IDENT = n then some c.LED_DESC_IDENT
        else if c.LED_TYPE_FAULT = -1 then some "Unknown"
        else if c.LED_TYPE_FAULT = n then some c.LED_DESC_FAULT
        else if c.LED_TYPE_ATTN = -1 then some "Unknown"
        else if c.LED_TYPE_ATTN = n then some c.LED_DESC_ATTN
        else some "Unknown" := by
  simp only [get_indicator_desc, led_type_map, get_indicator_desc_loop, if_true]

/-- The description of `-1` is `"Unknown"`, whatever the constants are: the
loop of `get_indicator_desc` only compares types other than `-1`. -/
theorem get_indicator_desc_invalid (c : Consts) :
    get_indicator_desc c (-1) = some "Unknown" := by
  rw [get_indicator_desc_eq]
  split_ifs <;> simp_all

/-- C15: the registry round trip.  With the three kinds of the header pairwise
different and different from `-1`: for a description `d` of the table,
`get_indicator_desc (get_indicator_type d)` is `d`; for every other string it
is `"Unknown"`. -/
theorem registry_round_trip (c : Consts) (hk : c.kinds_distinct) (d : String) :
    ((d = c.LED_DESC_IDENT ∨ d = c.LED_DESC_FAULT ∨ d = c.LED_DESC_ATTN) →
      get_indicator_desc c (get_indicator_type c d) = some d) ∧
    ((d ≠ c.LED_DESC_IDENT ∧ d ≠ c.LED_DESC_FAULT ∧ d ≠ c.LED_DESC_ATTN) →
      get_indicator_desc c (get_indicator_type c d) = some "Unknown") ∧
    (get_indicator_desc sampleConsts (get_indicator_type sampleConsts "Attention")
      = some "Attention") ∧
    (get_indicator_desc sampleConsts (get_indicator_type sampleConsts "Power")
      = some "Unknown") := by
  obtain ⟨h1, h2, h3, h4, h5, h6⟩ := hk
  refine ⟨?_, ?_, by decide, by decide⟩
  · intro hd
    rw [get_indicator_type_eq]
    by_cases e1 : c.LED_DESC_IDENT = d
    · rw [if_pos e1, get_indicator_desc_eq]
      simp [h4, e1]
    · rw [if_neg e1]
      by_cases e2 : c.LED_DESC_FAULT = d
      · rw [if_pos e2, get_indicator_desc_eq]
        simp [h4, h5, h1, e2]
      · rw [if_neg e2]
        have e3 : c.LED_DESC_ATTN = d := by
          rcases hd with hd | hd | hd
          · exact absurd hd.symm e1
          · exact absurd hd.symm e2
          · exact hd.symm
        rw [if_pos e3, get_indicator_desc_eq]
        simp [h4, h5, h6, h2, h3, e3]
  · intro hd
    have e1 : ¬ c.LED_DESC_IDENT = d := fun e => hd.1 e.symm
    have e2 : ¬ c.LED_DESC_FAULT = d := fun e => hd.2.1 e.symm
    have e3 : ¬ c.LED_DESC_ATTN = d := fun e => hd.2.2 e.symm
    rw [get_indicator_type_eq, if_neg e1, if_neg e2, if_neg e3]
    exact get_indicator_desc_invalid c

/-- The round trip at the sample constants and the description `"Fault"`. -/
theorem registry_round_trip_witness :
    sampleConsts.kinds_distinct ∧
    get_indicator_desc sampleConsts (get_indicator_type sampleConsts "Fault") = some "Fault" :=
  ⟨by decide,
    (registry_round_trip sampleConsts (by decide) "Fault").1 (Or.inr (Or.inl rfl))⟩

/-- C16: the defaults of the registry.  `get_indicator_type` returns `-1` for
every string that is not, as a whole and with case, one of the three
descriptions, and, with the three kinds pairwise different and different from
`-1`, returns a kind only for that kind's description.  `get_indicator_desc`
returns `"Unknown"` for every integer that is none of the three kinds, `-1`
included, and returns the description of the kind for each of the three. -/
theorem registry_defaults (c : Consts) (hk : c.kinds_distinct) :
    (∀ d, d ≠ c.LED_DESC_IDENT → d ≠ c.LED_DESC_FAULT → d ≠ c.LED_DESC_ATTN →
      get_indicator_type c d = -1) ∧
    (∀ d, get_indicator_type c d = c.LED_TYPE_IDENT → d = c.LED_DESC_IDENT) ∧
    (∀ d, get_indicator_type c d = c.LED_TYPE_FAULT → d = c.LED_DESC_FAULT) ∧
    (∀ d, get_indicator_type c d = c.LED_TYPE_ATTN → d = c.LED_DESC_ATTN) ∧
    (∀ d, get_indicator_type c d = -1 ∨ get_indicator_type c d = c.LED_TYPE_IDENT ∨
      get_indicator_type c d = c.LED_TYPE_FAULT ∨ get_indicator_type c d = c.LED_TYPE_ATTN) ∧
    (∀ n, n ≠ c.LED_TYPE_IDENT → n ≠ c.LED_TYPE_FAULT → n ≠ c.LED_TYPE_ATTN →
      get_indicator_desc c n = some "Unknown") ∧
    get_indicator_desc c (-1) = some "Unknown" ∧
    get_indicator_desc c c.LED_TYPE_IDENT = some c.LED_DESC_IDENT ∧
    get_indicator_desc c c.LED_TYPE_FAULT = some c.LED_DESC_FAULT ∧
    get_indicator_desc c c.LED_TYPE_ATTN = some c.LED_DESC_ATTN ∧
    (get_indicator_type sampleConsts "fault" = -1 ∧
     get_indicator_type sampleConsts "Fault " = -1 ∧
     get_indicator_type sampleConsts "" = -1 ∧
     get_indicator_type sampleConsts "Fault" = 1 ∧
     get_indicator_desc sampleConsts 3 = some "Unknown") := by
  obtain ⟨h1, h2, h3, h4, h5, h6⟩ := hk
  refine ⟨?_, ?_, ?_, ?_, ?_, ?_, get_indicator_desc_invalid c, ?_, ?_, ?_, by decide⟩
  · intro d e1 e2 e3
    rw [get_indicator_type_eq, if_neg (fun e => e1 e.symm), if_neg (fun e => e2 e.symm),
      if_neg (fun e => e3 e.symm)]
  · intro d
    rw [get_indicator_type_eq]
    split_ifs with e1 e2 e3
    · exact fun _ => e1.symm
    · exact fun e => absurd e.symm h1
    · exact fun e => absurd e.symm h2
    · exact fun e => absurd e.symm h4
  · intro d
    rw [get_indicator_type_eq]
    split_ifs with e1 e2 e3
    · exact fun e => absurd e h1
    · exact fun _ => e2.symm
    · exact fun e => absurd e.symm h3
    · exact fun e => absurd e.symm h5
  · intro d
    rw [get_indicator_type_eq]
    split_ifs with e1 e2 e3
    · exact fun e => absurd e h2
    · exact fun e => absurd e h3
    · exact fun _ => e3.symm
    · exact fun e => absurd e.symm h6
  · intro d
    rw [get_indicator_type_eq]
    split_ifs <;> simp
  · intro n e1 e2 e3
    rw [get_indicator_desc_eq]
    have a1 : ¬ c.LED_TYPE_IDENT = n := fun e => e1 e.symm
    have a2 : ¬ c.LED_TYPE_FAULT = n := fun e => e2 e.symm
    have a3 : ¬ c.LED_TYPE_ATTN = n := fun e => e3 e.symm
    simp [a1, a2, a3]
  · rw [get_indicator_desc_eq]
    simp [h4]
  · rw [get_indicator_desc_eq]
    simp [h4, h5, h1]
  · rw [get_indicator_desc_eq]
    simp [h4, h5, h6, h2, h3]

/-- The defaults at the sample constants: `"fault"` is not a description and
7 is not a kind. -/
theorem registry_defaults_witness :
    sampleConsts.kinds_distinct ∧
    get_indicator_type sampleConsts "fault" = -1 ∧
    get_indicator_desc sampleConsts 7 = some "Unknown" :=
  have h := registry_defaults sampleConsts (by decide)
  ⟨by decide, h.1 "fault" (by decide) (by decide) (by decide),
    h.2.2.2.2.2.1 7 (by decide) (by decide) (by decide)⟩

/-! ## Frame of the bulk routines -/

/-- C17: `get_all_indicator_state` changes nothing in the list except the
`state` field of its records: the number of records, their order, and the
code, the type and the addressing data of each record are the same after the
call as before.  The backend routines receive a record and, as their
interface is specified, do not change it. -/
theorem bulk_read_frame {W : Type} (B : Backend W) (c : Consts)
    (indicator : Int) (l : List loc_code) (state : Int) (s : State W) :
    (get_all_indicator_state B c indicator l state s).1.length = l.length ∧
    (get_all_indicator_state B c indicator l state s).1.map loc_code.code
      = l.map loc_code.code ∧
    (get_all_indicator_state B c indicator l state s).1.map loc_code.type
      = l.map loc_code.type ∧
    (get_all_indicator_state B c indicator l state s).1.map loc_code.addr
      = l.map loc_code.addr := by
  unfold get_all_indicator_state
  induction l generalizing state s with
  | nil => simp [get_all_indicator_state_loop]
  | cons loc next ih =>
    obtain ⟨h1, h2, h3, h4⟩ := ih (get_indicator_state B c indicator loc state s).2.1
      (get_indicator_state B c indicator loc state s).2.2
    simp only [get_all_indicator_state_loop, List.length_cons, List.map_cons, h1, h2, h3, h4]
    by_cases h0 : (get_indicator_state B c indicator loc state s).1 = 0 <;> simp [h0]

/-- The loop of `set_all_indicator_state` leaves the list as it was, and its
program state is the one of `set_all_indicator_state_loop`. -/
theorem set_all_indicator_state_loop_list_eq {W : Type} (B : Backend W) (c : Consts)
    (indicator new_value : Int) (l : List loc_code) (state : Int) (s : State W) :
    set_all_indicator_state_loop_list B c indicator new_value l state s
      = (l, set_all_indicator_state_loop B c indicator new_value l state s) := by
  induction l generalizing state s with
  | nil => rfl
  | cons loc next ih =>
    simp only [set_all_indicator_state_loop_list, set_all_indicator_state_loop, ih]

/-- C19: `set_all_indicator_state` does not modify the list it is given: the
list after the call is the list before it, record by record, the cached
`state` included, also for a record that was written successfully.  On two
records cached ON and reading ON, a bulk write of OFF turns both OFF in the
hardware world and leaves both cached states ON. -/
theorem bulk_write_leaves_list {W : Type} (B : Backend W) (c : Consts)
    (indicator new_value : Int) (l : List loc_code) (state : Int) (s : State W) :
    (set_all_indicator_state_list B c indicator l new_value state s).1 = l ∧
    (set_all_indicator_state_list B c indicator l new_value state s).2
      = set_all_indicator_state B c indicator l new_value state s ∧
    ((set_all_indicator_state_list plainBackend sampleConsts sampleConsts.LED_TYPE_IDENT
        sampleCachedOn sampleConsts.LED_STATE_OFF 0 (initState [(0, 1), (1, 1)])).1
      = sampleCachedOn ∧
     (set_all_indicator_state_list plainBackend sampleConsts sampleConsts.LED_TYPE_IDENT
        sampleCachedOn sampleConsts.LED_STATE_OFF 0 (initState [(0, 1), (1, 1)])).2.world
      = [(0, 0), (1, 0)] ∧
     (set_all_indicator_state_list plainBackend sampleConsts sampleConsts.LED_TYPE_IDENT
        sampleCachedOn sampleConsts.LED_STATE_OFF 0 (initState [(0, 1), (1, 1)])).2.calls
      = [Call.read 0 ⟨"U78", 2, 1, 0⟩ 0 1, Call.write 0 ⟨"U78", 2, 1, 0⟩ 0 0,
         Call.read 0 ⟨"U78-P1", 2, 1, 1⟩ 0 1, Call.write 0 ⟨"U78-P1", 2, 1, 1⟩ 0 0,
         Call.write 0 ⟨"U78", 2, 1, 0⟩ 0 0]) := by
  refine ⟨?_, ?_, by decide⟩
  · cases l with
    | nil => rfl
    | cons encl rest =>
      simp only [set_all_indicator_state_list, set_all_indicator_state_loop_list_eq]
      split_ifs <;> rfl
  · cases l with
    | nil => rfl
    | cons encl rest =>
      simp only [set_all_indicator_state_list, set_all_indicator_state,
        set_all_indicator_state_loop_list_eq]
      split_ifs <;> rfl

/-! ## Check-log indicator: the empty list -/

/-- C20: the code at the failing input.  When the platform query for
`LED_TYPE_FAULT` returns 0 and leaves the list empty, `clocation` is `NULL`
and both check-log routines dereference it in `set_indicator_state`: the
result is undefined (`none`).  On the same answer `check_operating_mode`
returns `-1` after its test of the list, and `set_all_indicator_state` on the
empty list does nothing. -/
theorem check_log_indicator_empty_list_undefined :
    enable_check_log_indicator (sampleBackend (0, []) (0, sampleEnclosure)) sampleConsts
        (initState []) = none ∧
    disable_check_log_indicator (sampleBackend (0, []) (0, sampleEnclosure)) sampleConsts
        (initState []) = none ∧
    (check_operating_mode (sampleBackend (0, []) (0, sampleEnclosure)) sampleConsts
        (initState [])).1 = -1 ∧
    (set_all_indicator_state (sampleBackend (0, []) (0, sampleEnclosure)) sampleConsts
        sampleConsts.LED_TYPE_IDENT [] sampleConsts.LED_STATE_OFF 0 (initState [])).hw = [] :=
  ⟨rfl, rfl, by decide, by decide⟩

/-! ## Repeated truncation -/

/-- On a code shorter than `2 ^ 31`, `truncate_loc_code` succeeds exactly when
the code contains a `'-'`. -/
theorem truncate_loc_code_success_iff (loccode : String) (hlen : loccode.length < 2 ^ 31) :
    (truncate_loc_code loccode).1 = 1 ↔ '-' ∈ loccode.data := by
  constructor
  · intro h
    by_contra hno
    rw [truncate_loc_code_of_no_dash loccode hno] at h
    simp at h
  · intro h
    obtain ⟨pre, suf, hsplit, hsuf⟩ := exists_last_dash loccode.data h
    rw [truncate_loc_code_of_split loccode hlen pre suf hsplit hsuf]

/-- A successful truncation removes one `'-'` and leaves a strictly shorter
prefix. -/
theorem truncate_loc_code_shrinks (loccode : String) (hlen : loccode.length < 2 ^ 31)
    (h : '-' ∈ loccode.data) :
    (truncate_loc_code loccode).2.data.count '-' + 1 = loccode.data.count '-' ∧
    (truncate_loc_code loccode).2.data <+: loccode.data ∧
    (truncate_loc_code loccode).2.length < loccode.length := by
  obtain ⟨pre, suf, hsplit, hsuf⟩ := exists_last_dash loccode.data h
  rw [truncate_loc_code_of_split loccode hlen pre suf hsplit hsuf]
  have hc : suf.count '-' = 0 := List.count_eq_zero.mpr hsuf
  refine ⟨?_, ?_, ?_⟩
  · simp [hsplit, hc]
  · rw [hsplit]
    exact List.prefix_append pre _
  · rw [String.length, String.length, hsplit]
    simp

/-- After `k` truncations of a code with `n` characters `'-'`, `k ≤ n`, there
are `n - k` of them left, and the code is still shorter than `2 ^ 31`. -/
theorem truncate_repeat_count (k : Nat) :
    ∀ (loccode : String), loccode.length < 2 ^ 31 → k ≤ loccode.data.count '-' →
      (truncate_repeat k loccode).data.count '-' = loccode.data.count '-' - k ∧
      (truncate_repeat k loccode).length < 2 ^ 31 := by
  induction k with
  | zero => intro loccode hlen _; exact ⟨rfl, hlen⟩
  | succ k ih =>
    intro loccode hlen hk
    have hpos : 0 < loccode.data.count '-' := Nat.lt_of_lt_of_le (Nat.succ_pos k) hk
    have hmem : '-' ∈ loccode.data := List.count_pos_iff.mp hpos
    obtain ⟨hcount, _, hshort⟩ := truncate_loc_code_shrinks loccode hlen hmem
    have hlen2 : (truncate_loc_code loccode).2.length < 2 ^ 31 := Nat.lt_trans hshort hlen
    have hk2 : k ≤ (truncate_loc_code loccode).2.data.count '-' := by
      have := hcount ▸ hk
      exact Nat.le_of_succ_le_succ this
    obtain ⟨h1, h2⟩ := ih (truncate_loc_code loccode).2 hlen2 hk2
    refine ⟨?_, h2⟩
    show (truncate_repeat k (truncate_loc_code loccode).2).data.count '-' = _
    rw [h1, ← hcount]
    exact (Nat.add_sub_add_right _ 1 k).symm

/-- C18: on a location code (shorter than `2 ^ 31` characters),
`truncate_loc_code` succeeds if and only if `is_enclosure_loc_code` is 0 for a
record with that code; a successful truncation lowers the number of `'-'` by
exactly one and leaves a strictly shorter prefix of the code; so on a code
with `n` characters `'-'` the first `n` truncations in a row succeed, the next
one fails, and the code reached then is enclosure-level: a search that
truncates until failure ends after `n` steps. -/
theorem truncation_reaches_enclosure_level (loccode : String)
    (hlen : loccode.length < 2 ^ 31) :
    (∀ loc : loc_code, loc.code = loccode →
      ((truncate_loc_code loccode).1 = 1 ↔ is_enclosure_loc_code loc = 0)) ∧
    ((truncate_loc_code loccode).1 = 1 →
      (truncate_loc_code loccode).2.data.count '-' + 1 = loccode.data.count '-' ∧
      (truncate_loc_code loccode).2.data <+: loccode.data ∧
      (truncate_loc_code loccode).2.length < loccode.length) ∧
    (∀ k, k < loccode.data.count '-' →
      (truncate_loc_code (truncate_repeat k loccode)).1 = 1) ∧
    truncate_loc_code (truncate_repeat (loccode.data.count '-') loccode)
      = (0, truncate_repeat (loccode.data.count '-') loccode) ∧
    (∀ loc : loc_code, loc.code = truncate_repeat (loccode.data.count '-') loccode →
      is_enclosure_loc_code loc = 1) ∧
    (truncate_repeat 1 "U78-P1-C2" = "U78-P1" ∧ truncate_repeat 2 "U78-P1-C2" = "U78" ∧
     truncate_loc_code (truncate_repeat 2 "U78-P1-C2") = (0, "U78")) := by
  refine ⟨?_, ?_, ?_, ?_, ?_, by decide⟩
  · intro loc hloc
    rw [truncate_loc_code_success_iff loccode hlen]
    subst hloc
    unfold is_enclosure_loc_code
    by_cases h : '-' ∈ loc.code.data
    · simp [(strchr_eq_none_iff loc.code.data '-').not.mpr (not_not.mpr h), h]
    · simp [(strchr_eq_none_iff loc.code.data '-').mpr h, h]
  · intro h
    exact truncate_loc_code_shrinks loccode hlen
      ((truncate_loc_code_success_iff loccode hlen).mp h)
  · intro k hk
    obtain ⟨h1, h2⟩ := truncate_repeat_count k loccode hlen (by omega)
    rw [truncate_loc_code_success_iff _ h2]
    exact List.count_pos_iff.mp (by omega)
  · obtain ⟨h1, _⟩ := truncate_repeat_count (loccode.data.count '-') loccode hlen (by omega)
    apply truncate_loc_code_of_no_dash
    apply List.count_eq_zero.mp
    omega
  · intro loc hloc
    obtain ⟨h1, _⟩ := truncate_repeat_count (loccode.data.count '-') loccode hlen (by omega)
    have hno : '-' ∉ loc.code.data := by
      rw [hloc]
      apply List.count_eq_zero.mp
      omega
    unfold is_enclosure_loc_code
    simp [(strchr_eq_none_iff loc.code.data '-').mpr hno]

/-- The repeated truncation of `"U78-P1-C2"`, which has two `'-'`: the second
truncation succeeds, the third fails. -/
theorem truncation_reaches_enclosure_level_witness :
    (truncate_loc_code (truncate_repeat 1 "U78-P1-C2")).1 = 1 ∧
    truncate_loc_code (truncate_repeat ("U78-P1-C2".data.count '-') "U78-P1-C2")
      = (0, truncate_repeat ("U78-P1-C2".data.count '-') "U78-P1-C2") :=
  have h := truncation_reaches_enclosure_level "U78-P1-C2" (by decide)
  ⟨h.2.2.1 1 (by decide), h.2.2.2.1⟩

end Indicator
